import Mathlib

/-! Shallow embedding of `src/src/pesign.c` (the pesign command-line front end).

One invocation of `main` is modelled as a pure function from the parsed
command line (`Invocation`) and the relevant state of the outside world
(`Env`) to the observable behaviour of the process: the ordered list of
side effects it performs (`Event`) together with its process exit code.
Calls into code of this repository that is not under `src/` (the cms
helper library, the context constructor, the daemon) are represented by
`Env` fields and by definitions whose doc comments start with
`Modelled from the spec:`. -/

namespace Pesign

/-- Action flag `NO_FLAGS` (pesign.c line 39). -/
def NO_FLAGS : Nat := 0x00

/-- Action flag `GENERATE_DIGEST` (line 40). -/
def GENERATE_DIGEST : Nat := 0x01

/-- Action flag `GENERATE_SIGNATURE` (line 41). -/
def GENERATE_SIGNATURE : Nat := 0x02

/-- Action flag `IMPORT_RAW_SIGNATURE` (line 42). -/
def IMPORT_RAW_SIGNATURE : Nat := 0x04

/-- Action flag `IMPORT_SIGNATURE` (line 43). -/
def IMPORT_SIGNATURE : Nat := 0x08

/-- Action flag `IMPORT_SATTRS` (line 44). -/
def IMPORT_SATTRS : Nat := 0x10

/-- Action flag `EXPORT_SATTRS` (line 45). -/
def EXPORT_SATTRS : Nat := 0x20

/-- Action flag `EXPORT_SIGNATURE` (line 46). -/
def EXPORT_SIGNATURE : Nat := 0x40

/-- Action flag `REMOVE_SIGNATURE` (line 47). -/
def REMOVE_SIGNATURE : Nat := 0x80

/-- Action flag `LIST_SIGNATURES` (line 48). -/
def LIST_SIGNATURES : Nat := 0x100

/-- Action flag `PRINT_DIGEST` (line 49). -/
def PRINT_DIGEST : Nat := 0x200

/-- Action flag `EXPORT_PUBKEY` (line 50). -/
def EXPORT_PUBKEY : Nat := 0x400

/-- Action flag `EXPORT_CERT` (line 51). -/
def EXPORT_CERT : Nat := 0x800

/-- Action flag `DAEMONIZE` (line 52). -/
def DAEMONIZE : Nat := 0x1000

/-- Action flag `FLAG_LIST_END` (line 53). -/
def FLAG_LIST_END : Nat := 0x2000

/-- The `flag_names` table (lines 55-72): flag bit and printable name. -/
def flag_names : List (Nat × String) :=
  [(DAEMONIZE, "daemonize"), (GENERATE_DIGEST, "hash"), (GENERATE_SIGNATURE, "sign"),
   (IMPORT_RAW_SIGNATURE, "import-raw-sig"), (IMPORT_SIGNATURE, "import-sig"),
   (IMPORT_SATTRS, "import-sattrs"), (EXPORT_SATTRS, "export-sattrs"),
   (EXPORT_SIGNATURE, "export-sig"), (EXPORT_PUBKEY, "export-pubkey"),
   (EXPORT_CERT, "export-cert"), (REMOVE_SIGNATURE, "remove"),
   (LIST_SIGNATURES, "list")]

/-- One observable side effect of an invocation.  Open events carry the
path of the file they act on.  `openInput` is `open(infile, O_RDONLY)` at
line 92: it never modifies the file.  `openOutput` is lines 157-171:
`open(outfile, O_RDWR|O_CREAT|O_TRUNC)` followed by `ftruncate` and a
write of a copy of the input image, so it creates or truncates the named
file.  `clearCert` is `pe_clearcert(ctx->outpe)` at line 181.
`closeOutput` is `close_output` (lines 128-141): it finalizes the
signature list and flushes the output image with `pe_update`, writing the
named file.  The other `open...Output` events are the corresponding
`O_RDWR|O_CREAT|O_TRUNC` opens; `open...Input` events are `O_RDONLY`
opens; `stdout` and `stderr` carry text printed to those streams. -/
inductive Event where
  | openInput (path : String)
  | openOutput (path : String)
  | clearCert (path : String)
  | closeInput
  | closeOutput (path : String)
  | openRawsigInput (path : String)
  | closeRawsigInput
  | openSattrInput (path : String)
  | closeSattrInput
  | openSattrOutput (path : String)
  | closeSattrOutput
  | openSigInput (path : String)
  | closeSigInput
  | openSigOutput (path : String)
  | closeSigOutput
  | openPubkeyOutput (path : String)
  | openCertOutput (path : String)
  | findCertificate (needKey : Bool) (found : Bool)
  | importRawSignature
  | parseSignature
  | generateDigest (padding : Bool)
  | calculateSignatureSpace
  | getSigspaceExtendAmount
  | allocateSignatureSpace
  | checkSignatureSpace
  | generateSignature
  | insertSignature (i : Int)
  | removeSignature
  | selectSignature (i : Int)
  | exportSignature
  | exportPubkey
  | exportCert
  | listSignatures
  | generateSattrBlob
  | daemonizeEv
  | stdout (s : String)
  | stderr (s : String)
deriving DecidableEq

/-- The file this event creates, truncates or writes, if any.  `openOutput`
and the other output opens use `O_CREAT|O_TRUNC` (lines 157, 244, 298, 328,
351); `closeOutput` flushes the output image via `pe_update` (line 135). -/
def Event.writesTo : Event → Option String
  | .openOutput p => some p
  | .clearCert p => some p
  | .closeOutput p => some p
  | .openSattrOutput p => some p
  | .openSigOutput p => some p
  | .openPubkeyOutput p => some p
  | .openCertOutput p => some p
  | _ => none

/-- Whether this event opens, creates, truncates or writes any file. -/
def Event.touchesAnyFile : Event → Bool
  | .openInput _ => true
  | .openOutput _ => true
  | .clearCert _ => true
  | .closeInput => true
  | .closeOutput _ => true
  | .openRawsigInput _ => true
  | .closeRawsigInput => true
  | .openSattrInput _ => true
  | .closeSattrInput => true
  | .openSattrOutput _ => true
  | .closeSattrOutput => true
  | .openSigInput _ => true
  | .closeSigInput => true
  | .openSigOutput _ => true
  | .closeSigOutput => true
  | .openPubkeyOutput _ => true
  | .openCertOutput _ => true
  | _ => false

/-- The parsed command line of one invocation, after popt processing
(lines 405-612).  `signum` is the value parsed by `strtol` at line 607
(0 when the option is absent, matching the zero-initialized context). -/
structure Invocation where
  infile : Option String
  outfile : Option String
  certname : Option String
  signum : Int
  force : Bool
  sign : Bool
  hash : Bool
  rawsig : Option String
  insattrs : Option String
  outsattrs : Option String
  insig : Option String
  outsig : Option String
  outkey : Option String
  outcert : Option String
  remove : Bool
  list : Bool
  daemon : Bool
  digestName : String
  padding : Bool
deriving DecidableEq

/-- The state of the world outside the process that the run depends on:
how many signature records `parse_signatures` finds in the input image,
whether the certificate store can resolve the configured nickname, the
digest bytes the cms digest engine produces for the selected algorithm,
and whether the various external-library calls succeed. -/
structure Env where
  numSignatures : Nat
  certFound : Bool
  digest : List Nat
  nssInitOk : Bool
  registerOidsOk : Bool
  inputOpenOk : Bool
  inputLoadOk : Bool
  parseSignaturesOk : Bool
  outfileExists : Bool
  outputOpenOk : Bool
  outputLoadOk : Bool
  outsigExists : Bool
  outsattrsExists : Bool
  outkeyExists : Bool
  outcertExists : Bool
  nssShutdownOk : Bool
  daemonizeOk : Bool
deriving DecidableEq

/-- All external-library calls and file-system operations succeed. -/
def Env.sysOk (e : Env) : Prop :=
  e.nssInitOk = true ∧ e.registerOidsOk = true ∧ e.inputOpenOk = true ∧
  e.inputLoadOk = true ∧ e.parseSignaturesOk = true ∧ e.outputOpenOk = true ∧
  e.outputLoadOk = true ∧ e.nssShutdownOk = true

instance (e : Env) : Decidable e.sysOk := by
  unfold Env.sysOk
  infer_instance

/-- A finished run: the ordered event trace and the process exit code. -/
abbrev Run := List Event × Nat

/-- The continuation type inside the action switch: either the process
already called `exit` (left: trace and exit code), or the switch case fell
through with a trace and the current value of `rc` (line 936 turns that
into the final exit code). -/
abbrev Cont := Except Run (List Event × Int)

/-- Sequence a helper that may `exit` (left) before the continuation,
prepending its events. -/
def seqStep (s : Except Run (List Event)) (k : Cont) : Cont :=
  match s with
  | .error r => .error r
  | .ok t =>
    match k with
    | .error (t2, c) => .error (t ++ t2, c)
    | .ok (t2, rc) => .ok (t ++ t2, rc)

/-- Prepend events that always happen before the continuation. -/
def emit (t : List Event) (k : Cont) : Cont :=
  match k with
  | .error (t2, c) => .error (t ++ t2, c)
  | .ok (t2, rc) => .ok (t ++ t2, rc)

/-- Modelled from the spec: `set_digest_parameters` (cms support code, not
under `src/`) accepts exactly the digest algorithm names
sha1, sha256, sha384, sha512 (spec section 6) and returns a negative value
for every other name, including the special name help (for which it prints
the list of supported digests). -/
def set_digest_parameters (name : String) : Int :=
  if name = "sha1" ∨ name = "sha256" ∨ name = "sha384" ∨ name = "sha512"
  then 0 else -1

/-- Modelled from the spec: `find_certificate` (the Certificate Store
Bridge, spec sections 4.4 and 6; not under `src/`) resolves the configured
certificate nickname, returning 0 on success and a negative value when the
nickname cannot be resolved. -/
def find_certificate (env : Env) : Int :=
  if env.certFound then 0 else -1

/-- Modelled from the spec: `pesign_context_new` (context constructor, not
under `src/`) yields a fresh context with no parsed signature list; the
signature count is 0 until `parse_signatures` (spec section 4.2, `parse`)
runs inside `open_input`. -/
def initial_num_signatures : Int := 0

/-- Modelled from the spec: `daemonize` (the Daemon Coordinator, spec
section 4.5; not under `src/`) returns 0 on success and a negative value
on failure. -/
def daemonize_rc (env : Env) : Int :=
  if env.daemonizeOk then 0 else -1

/-- `check_inputs` (lines 360-378): require an input path, an output path,
and reject in-place editing when the two are the same string. -/
def check_inputs (inv : Invocation) : Except Run (List Event) :=
  if inv.infile.isNone then
    .error ([.stderr "pesign: No input file specified."], 1)
  else if inv.outfile.isNone then
    .error ([.stderr "pesign: No output file specified."], 1)
  else if inv.infile = inv.outfile then
    .error ([.stderr "pesign: in-place file editing is not yet supported"], 1)
  else .ok []

/-- `open_input` (lines 83-116): open the input image read-only, load it,
and parse its signature list.  After this step the context's signature
count is the parsed `Env.numSignatures`. -/
def open_input (inv : Invocation) (env : Env) : Except Run (List Event) :=
  if inv.infile.isNone then
    .error ([.stderr "pesign: No input file specified."], 1)
  else if !env.inputOpenOk then
    .error ([.stderr "pesign: Error opening input"], 1)
  else if !env.inputLoadOk then
    .error ([.openInput (inv.infile.getD "")], 1)
  else if !env.parseSignaturesOk then
    .error ([.openInput (inv.infile.getD ""),
             .stderr "pesign: could not parse signature list in EFI binary"], 1)
  else .ok [.openInput (inv.infile.getD "")]

/-- `open_output` (lines 143-182): refuse to overwrite an existing file
without `--force`, then create/truncate the output, copy the whole input
image into it, load it, and clear its certificate table. -/
def open_output (inv : Invocation) (env : Env) : Except Run (List Event) :=
  if inv.outfile.isNone then
    .error ([.stderr "pesign: No output file specified."], 1)
  else if env.outfileExists && !inv.force then
    .error ([.stderr "pesign: output file exists and --force was not given."], 1)
  else if !env.outputOpenOk then
    .error ([.stderr "pesign: Error opening output"], 1)
  else if !env.outputLoadOk then
    .error ([.openOutput (inv.outfile.getD "")], 1)
  else .ok [.openOutput (inv.outfile.getD ""),
            .clearCert (inv.outfile.getD "")]

/-- `open_rawsig_input` (lines 184-198). -/
def open_rawsig_input (inv : Invocation) : Except Run (List Event) :=
  if inv.rawsig.isNone then
    .error ([.stderr "pesign: No input file specified."], 1)
  else .ok [.openRawsigInput (inv.rawsig.getD "")]

/-- `open_sattr_input` (lines 207-221). -/
def open_sattr_input (inv : Invocation) : Except Run (List Event) :=
  if inv.insattrs.isNone then
    .error ([.stderr "pesign: No input file specified."], 1)
  else .ok [.openSattrInput (inv.insattrs.getD "")]

/-- `open_sattr_output` (lines 230-252). -/
def open_sattr_output (inv : Invocation) (env : Env) : Except Run (List Event) :=
  if inv.outsattrs.isNone then
    .error ([.stderr "pesign: No output file specified."], 1)
  else if env.outsattrsExists && !inv.force then
    .error ([.stderr "pesign: signed attributes output exists and --force was not given."], 1)
  else .ok [.openSattrOutput (inv.outsattrs.getD "")]

/-- `open_sig_input` (lines 261-275). -/
def open_sig_input (inv : Invocation) : Except Run (List Event) :=
  if inv.insig.isNone then
    .error ([.stderr "pesign: No input file specified."], 1)
  else .ok [.openSigInput (inv.insig.getD "")]

/-- `open_sig_output` (lines 284-305). -/
def open_sig_output (inv : Invocation) (env : Env) : Except Run (List Event) :=
  if inv.outsig.isNone then
    .error ([.stderr "pesign: No output file specified."], 1)
  else if env.outsigExists && !inv.force then
    .error ([.stderr "pesign: signature output exists and --force was not given."], 1)
  else .ok [.openSigOutput (inv.outsig.getD "")]

/-- `open_pubkey_output` (lines 314-335). -/
def open_pubkey_output (inv : Invocation) (env : Env) : Except Run (List Event) :=
  if inv.outkey.isNone then
    .error ([.stderr "pesign: No output file specified."], 1)
  else if env.outkeyExists && !inv.force then
    .error ([.stderr "pesign: pubkey output exists and --force was not given."], 1)
  else .ok [.openPubkeyOutput (inv.outkey.getD "")]

/-- `open_cert_output` (lines 337-358). -/
def open_cert_output (inv : Invocation) (env : Env) : Except Run (List Event) :=
  if inv.outcert.isNone then
    .error ([.stderr "pesign: No output file specified."], 1)
  else if env.outcertExists && !inv.force then
    .error ([.stderr "pesign: certificate output exists and --force was not given."], 1)
  else .ok [.openCertOutput (inv.outcert.getD "")]

/-- A `find_certificate` call site (lines 746-752, 799-805, 810-816,
874-880, 890-896): on failure print the error and `exit(1)`. -/
def find_certificate_step (env : Env) (needKey : Bool) : Except Run (List Event) :=
  if find_certificate env < 0 then
    .error ([.findCertificate needKey false,
             .stderr "pesign: Could not find certificate"], 1)
  else .ok [.findCertificate needKey true]

/-- The action bitmask assembly of lines 614-659. -/
def actionOf (inv : Invocation) : Nat :=
  let a := 0
  let a := if inv.daemon then a ||| DAEMONIZE else a
  let a := if inv.rawsig.isSome then a ||| IMPORT_RAW_SIGNATURE else a
  let a := if inv.insattrs.isSome then a ||| IMPORT_SATTRS else a
  let a := if inv.outsattrs.isSome then a ||| EXPORT_SATTRS else a
  let a := if inv.insig.isSome then a ||| IMPORT_SIGNATURE else a
  let a := if inv.outkey.isSome then a ||| EXPORT_PUBKEY else a
  let a := if inv.outcert.isSome then a ||| EXPORT_CERT else a
  let a := if inv.outsig.isSome then a ||| EXPORT_SIGNATURE else a
  let a := if inv.remove then a ||| REMOVE_SIGNATURE else a
  let a := if inv.list then a ||| LIST_SIGNATURES else a
  let a := if inv.sign then
             (let b := a ||| GENERATE_SIGNATURE
              if b &&& EXPORT_SIGNATURE = 0 then b ||| IMPORT_SIGNATURE else b)
           else a
  let a := if inv.hash then a ||| (GENERATE_DIGEST ||| PRINT_DIGEST) else a
  a

/-- `%02x` rendering of one hex digit (lowercase), as printf produces. -/
def hexDigitChar (n : Nat) : Char :=
  if n < 10 then Char.ofNat (48 + n) else Char.ofNat (87 + n)

/-- `%02x` rendering of one byte, as the loop in `print_digest`
(lines 392-394) produces for each digest byte. -/
def hexByte (b : Nat) : String :=
  String.mk [hexDigitChar (b / 16), hexDigitChar (b % 16)]

/-- Concatenation of the `%02x` renderings of a byte list. -/
def hexConcat : List Nat → String
  | [] => ""
  | b :: r => hexByte b ++ hexConcat r

/-- The newline printf adds after the digest (line 395) and after the
incompatible-flag listing (line 922). -/
def newline : String := "\n"

/-- `print_digest` (lines 380-396) as the list of stdout writes it
performs: the prefix, one `%02x` write per digest byte, and a newline. -/
def print_digest (digest : List Nat) : List Event :=
  [Event.stdout "hash: "] ++ digest.map (fun b => Event.stdout (hexByte b))
    ++ [Event.stdout newline]

/-- `print_flag_name` (lines 74-81): print the table name of one flag. -/
def print_flag_name (flag : Nat) : List Event :=
  (flag_names.filter (fun p => p.1 == flag)).map
    (fun p => Event.stderr (p.2 ++ " "))

/-- The bit values the default-case loop at line 918 walks through
(`for i = 1; i < FLAG_LIST_END; i <<= 1`). -/
def flagBits : List Nat :=
  [1, 2, 4, 8, 16, 32, 64, 128, 256, 512, 1024, 2048, 4096]

/-- The stderr writes of the `default` switch case (lines 916-923):
a header, the name of every set action flag, and a newline. -/
def incompatibleEvents (action : Nat) : List Event :=
  [Event.stderr "Incompatible flags: "]
    ++ ((flagBits.filter (fun i => action &&& i != 0)).map print_flag_name).flatten
    ++ [Event.stderr newline]

/-- The `NO_FLAGS` case (lines 736-739): report and `exit(0)`. -/
def caseNoFlags : Cont :=
  .error ([.stderr "pesign: Nothing to do."], 0)

/-- The `IMPORT_RAW_SIGNATURE|IMPORT_SATTRS` case (lines 744-769). -/
def caseImportRawSattrs (inv : Invocation) (env : Env) : Cont :=
  seqStep (check_inputs inv) <|
  seqStep (find_certificate_step env false) <|
  seqStep (open_rawsig_input inv) <|
  seqStep (open_sattr_input inv) <|
  emit [.importRawSignature, .closeSattrInput, .closeRawsigInput] <|
  seqStep (open_input inv env) <|
  seqStep (open_output inv env) <|
  emit [.closeInput, .generateDigest true, .calculateSignatureSpace,
        .allocateSignatureSpace, .generateSignature,
        .insertSignature inv.signum, .closeOutput (inv.outfile.getD "")] <|
  .ok ([], 0)

/-- The `EXPORT_SATTRS` case (lines 770-777). -/
def caseExportSattrs (inv : Invocation) (env : Env) : Cont :=
  seqStep (open_input inv env) <|
  seqStep (open_sattr_output inv env) <|
  emit [.generateDigest true, .generateSattrBlob, .closeSattrOutput,
        .closeInput] <|
  .ok ([], 0)

/-- The `IMPORT_SIGNATURE` case (lines 779-797).  The signature-number
check at line 781 runs before `open_input`, so it compares against the
initial (pre-parse) signature count, not the count parsed from the input
file. -/
def caseImportSig (inv : Invocation) (env : Env) : Cont :=
  seqStep (check_inputs inv) <|
  if inv.signum > initial_num_signatures + 1 then
    .error ([.stderr "Invalid signature number."], 1)
  else
  seqStep (open_input inv env) <|
  seqStep (open_output inv env) <|
  emit [.closeInput] <|
  seqStep (open_sig_input inv) <|
  emit [.parseSignature, .getSigspaceExtendAmount, .allocateSignatureSpace,
        .checkSignatureSpace, .insertSignature inv.signum, .closeSigInput,
        .closeOutput (inv.outfile.getD "")] <|
  .ok ([], 0)

/-- The `EXPORT_PUBKEY` case (lines 798-808). -/
def caseExportPubkey (inv : Invocation) (env : Env) : Cont :=
  seqStep (find_certificate_step env true) <|
  seqStep (open_pubkey_output inv env) <|
  emit [.exportPubkey] <|
  .ok ([], 0)

/-- The `EXPORT_CERT` case (lines 809-819). -/
def caseExportCert (inv : Invocation) (env : Env) : Cont :=
  seqStep (find_certificate_step env false) <|
  seqStep (open_cert_output inv env) <|
  emit [.exportCert] <|
  .ok ([], 0)

/-- The `EXPORT_SIGNATURE` case (lines 820-843).  The signature output
file is created before the bounds checks; a negative signature number is
clamped to 0 at lines 828-829. -/
def caseExportSig (inv : Invocation) (env : Env) : Cont :=
  seqStep (open_input inv env) <|
  seqStep (open_sig_output inv env) <|
  if inv.signum > (env.numSignatures : Int) then
    .error ([.stderr "Invalid signature number."], 1)
  else
  let clamped := if inv.signum < 0 then 0 else inv.signum
  if clamped ≥ (env.numSignatures : Int) then
    .error ([.stderr ("No valid signature " ++ toString clamped ++ ".")], 1)
  else
  emit [.selectSignature clamped, .exportSignature, .closeInput,
        .closeSigOutput] <|
  .ok ([], 0)

/-- The `REMOVE_SIGNATURE` case (lines 845-861).  The output image is
created, truncated, filled with a copy of the input and cert-cleared by
`open_output` before the bounds check at lines 850-858. -/
def caseRemove (inv : Invocation) (env : Env) : Cont :=
  seqStep (check_inputs inv) <|
  seqStep (open_input inv env) <|
  seqStep (open_output inv env) <|
  emit [.closeInput] <|
  if inv.signum < 0 ∨ inv.signum ≥ (env.numSignatures : Int) then
    .error ([.stderr ("Invalid signature number " ++ toString inv.signum
              ++ ". Must be between 0 and "
              ++ toString ((env.numSignatures : Int) - 1) ++ ".")], 1)
  else
  emit [.removeSignature, .closeOutput (inv.outfile.getD "")] <|
  .ok ([], 0)

/-- The `LIST_SIGNATURES` case (lines 863-866). -/
def caseList (inv : Invocation) (env : Env) : Cont :=
  seqStep (open_input inv env) <|
  emit [.listSignatures] <|
  .ok ([], 0)

/-- The `GENERATE_DIGEST|PRINT_DIGEST` case (lines 867-871): the only
call site that passes the user-supplied `--padding` flag to
`generate_digest`. -/
def caseHash (inv : Invocation) (env : Env) : Cont :=
  seqStep (open_input inv env) <|
  emit ([.generateDigest inv.padding] ++ print_digest env.digest) <|
  .ok ([], 0)

/-- The `EXPORT_SIGNATURE|GENERATE_SIGNATURE` case (lines 873-886). -/
def caseExportGenSig (inv : Invocation) (env : Env) : Cont :=
  seqStep (find_certificate_step env true) <|
  seqStep (open_input inv env) <|
  seqStep (open_sig_output inv env) <|
  emit [.generateDigest true, .generateSignature, .exportSignature] <|
  .ok ([], 0)

/-- The `IMPORT_SIGNATURE|GENERATE_SIGNATURE` (sign and embed) case
(lines 888-912).  The signature-number check at line 897 runs before
`open_input`, so it compares against the initial (pre-parse) signature
count; the digest is computed at line 904, and computed a second time at
line 908 after `allocate_signature_space` has grown the output image. -/
def caseImportGenSig (inv : Invocation) (env : Env) : Cont :=
  seqStep (check_inputs inv) <|
  seqStep (find_certificate_step env true) <|
  if inv.signum > initial_num_signatures + 1 then
    .error ([.stderr "Invalid signature number."], 1)
  else
  seqStep (open_input inv env) <|
  seqStep (open_output inv env) <|
  emit [.closeInput, .generateDigest true, .calculateSignatureSpace,
        .allocateSignatureSpace, .generateDigest true, .generateSignature,
        .insertSignature inv.signum, .closeOutput (inv.outfile.getD "")] <|
  .ok ([], 0)

/-- The `DAEMONIZE` case (lines 913-915): `rc = daemonize(...)`. -/
def caseDaemonize (env : Env) : Cont :=
  .ok ([.daemonizeEv], daemonize_rc env)

/-- The pre-switch part of `main` (lines 661-731): NSS initialization and
OID registration (skipped when daemonizing), the digest-name check with
its special treatment of the name help (`exit(!is_help)`, line 701), and
the signing-needs-a-nickname check.  Returns the early exit, if any.
Arena allocation of the token and certificate names (lines 704-722) is
assumed to succeed. -/
def preSwitch (inv : Invocation) (env : Env) : Option Run :=
  if !inv.daemon && !env.nssInitOk then
    some ([.stderr "Could not initialize nss."], 1)
  else if !inv.daemon && !env.registerOidsOk then
    some ([.stderr "Could not register OIDs"], 1)
  else if set_digest_parameters inv.digestName < 0 then
    (if inv.digestName = "help" then some ([], 0)
     else some ([.stderr ("Digest " ++ inv.digestName ++ " not found.")], 1))
  else if inv.sign && inv.certname.isNone then
    some ([.stderr "pesign: signing requested but no certificate nickname provided"], 1)
  else none

/-- The action switch of `main` (lines 735-924). -/
def runSwitch (inv : Invocation) (env : Env) : Cont :=
  let action := actionOf inv
  if action = NO_FLAGS then caseNoFlags
  else if action = (IMPORT_RAW_SIGNATURE ||| IMPORT_SATTRS) then
    caseImportRawSattrs inv env
  else if action = EXPORT_SATTRS then caseExportSattrs inv env
  else if action = IMPORT_SIGNATURE then caseImportSig inv env
  else if action = EXPORT_PUBKEY then caseExportPubkey inv env
  else if action = EXPORT_CERT then caseExportCert inv env
  else if action = EXPORT_SIGNATURE then caseExportSig inv env
  else if action = REMOVE_SIGNATURE then caseRemove inv env
  else if action = LIST_SIGNATURES then caseList inv env
  else if action = (GENERATE_DIGEST ||| PRINT_DIGEST) then caseHash inv env
  else if action = (EXPORT_SIGNATURE ||| GENERATE_SIGNATURE) then
    caseExportGenSig inv env
  else if action = (IMPORT_SIGNATURE ||| GENERATE_SIGNATURE) then
    caseImportGenSig inv env
  else if action = DAEMONIZE then caseDaemonize env
  else .error (incompatibleEvents action, 1)

/-- One whole invocation of `main` (lines 398-937): the pre-switch
checks, the action switch, and on fall-through the NSS shutdown (lines
927-934) followed by `return (rc < 0)` (line 936). -/
def runMain (inv : Invocation) (env : Env) : Run :=
  match preSwitch inv env with
  | some r => r
  | none =>
    match runSwitch inv env with
    | .error r => r
    | .ok (t, rc) =>
      if !inv.daemon && !env.nssShutdownOk then
        (t ++ [.stderr "could not shut down NSS"], 1)
      else (t, if rc < 0 then 1 else 0)

/-- The text an invocation prints on standard output, in order. -/
def stdoutString : List Event → String
  | [] => ""
  | Event.stdout s :: r => s ++ stdoutString r
  | _ :: r => stdoutString r

/-- An invocation with no options given: every path absent, every flag
off, the default digest name sha256 (line 412), signature number 0. -/
def baseInv : Invocation :=
  { infile := none, outfile := none, certname := none, signum := 0,
    force := false, sign := false, hash := false, rawsig := none,
    insattrs := none, outsattrs := none, insig := none, outsig := none,
    outkey := none, outcert := none, remove := false, list := false,
    daemon := false, digestName := "sha256", padding := false }

/-- An environment where every external call succeeds, the certificate
store resolves the nickname, the input image carries no signatures and no
output file already exists. -/
def baseEnv : Env :=
  { numSignatures := 0, certFound := true, digest := [],
    nssInitOk := true, registerOidsOk := true, inputOpenOk := true,
    inputLoadOk := true, parseSignaturesOk := true, outfileExists := false,
    outputOpenOk := true, outputLoadOk := true, outsigExists := false,
    outsattrsExists := false, outkeyExists := false, outcertExists := false,
    nssShutdownOk := true, daemonizeOk := true }

def removeInv : Invocation :=
  { baseInv with
    remove := true, infile := some "in.efi", outfile := some "out.efi" }

def signEmbedInv : Invocation :=
  { baseInv with
    sign := true, certname := some "mycert", infile := some "in.efi",
    outfile := some "out.efi" }

theorem preSwitch_eq_none (inv : Invocation) (env : Env)
    (hnss : env.nssInitOk = true) (hoid : env.registerOidsOk = true)
    (hdg : set_digest_parameters inv.digestName = 0)
    (hsc : inv.sign = true → inv.certname.isSome) :
    preSwitch inv env = none := by
  have h4 : (inv.sign && inv.certname.isNone) = false := by
    cases hs : inv.sign
    · simp
    · cases hc : inv.certname
      · have := hsc hs
        rw [hc] at this
        simp at this
      · simp [hc]
  unfold preSwitch
  rw [hnss, hoid, hdg, h4]
  simp

theorem runMain_of_preSwitch_none (inv : Invocation) (env : Env)
    (hpre : preSwitch inv env = none) :
    runMain inv env =
      match runSwitch inv env with
      | .error r => r
      | .ok (t, rc) =>
        if !inv.daemon && !env.nssShutdownOk then
          (t ++ [.stderr "could not shut down NSS"], 1)
        else (t, if rc < 0 then 1 else 0) := by
  unfold runMain
  rw [hpre]

theorem runSwitch_eq_caseRemove (inv : Invocation) (env : Env)
    (hact : actionOf inv = REMOVE_SIGNATURE) :
    runSwitch inv env = caseRemove inv env := by
  simp [runSwitch, hact, NO_FLAGS, IMPORT_RAW_SIGNATURE, IMPORT_SATTRS,
    EXPORT_SATTRS, IMPORT_SIGNATURE, EXPORT_PUBKEY, EXPORT_CERT,
    EXPORT_SIGNATURE, REMOVE_SIGNATURE, LIST_SIGNATURES, GENERATE_DIGEST,
    PRINT_DIGEST, GENERATE_SIGNATURE, DAEMONIZE]

theorem runSwitch_eq_caseExportSig (inv : Invocation) (env : Env)
    (hact : actionOf inv = EXPORT_SIGNATURE) :
    runSwitch inv env = caseExportSig inv env := by
  simp [runSwitch, hact, NO_FLAGS, IMPORT_RAW_SIGNATURE, IMPORT_SATTRS,
    EXPORT_SATTRS, IMPORT_SIGNATURE, EXPORT_PUBKEY, EXPORT_CERT,
    EXPORT_SIGNATURE, REMOVE_SIGNATURE, LIST_SIGNATURES, GENERATE_DIGEST,
    PRINT_DIGEST, GENERATE_SIGNATURE, DAEMONIZE]

theorem runSwitch_eq_caseImportSig (inv : Invocation) (env : Env)
    (hact : actionOf inv = IMPORT_SIGNATURE) :
    runSwitch inv env = caseImportSig inv env := by
  simp [runSwitch, hact, NO_FLAGS, IMPORT_RAW_SIGNATURE, IMPORT_SATTRS,
    EXPORT_SATTRS, IMPORT_SIGNATURE, EXPORT_PUBKEY, EXPORT_CERT,
    EXPORT_SIGNATURE, REMOVE_SIGNATURE, LIST_SIGNATURES, GENERATE_DIGEST,
    PRINT_DIGEST, GENERATE_SIGNATURE, DAEMONIZE]

theorem runSwitch_eq_caseImportGenSig (inv : Invocation) (env : Env)
    (hact : actionOf inv = (IMPORT_SIGNATURE ||| GENERATE_SIGNATURE)) :
    runSwitch inv env = caseImportGenSig inv env := by
  simp [runSwitch, hact, NO_FLAGS, IMPORT_RAW_SIGNATURE, IMPORT_SATTRS,
    EXPORT_SATTRS, IMPORT_SIGNATURE, EXPORT_PUBKEY, EXPORT_CERT,
    EXPORT_SIGNATURE, REMOVE_SIGNATURE, LIST_SIGNATURES, GENERATE_DIGEST,
    PRINT_DIGEST, GENERATE_SIGNATURE, DAEMONIZE]

theorem runSwitch_eq_caseImportRawSattrs (inv : Invocation) (env : Env)
    (hact : actionOf inv = (IMPORT_RAW_SIGNATURE ||| IMPORT_SATTRS)) :
    runSwitch inv env = caseImportRawSattrs inv env := by
  simp [runSwitch, hact, NO_FLAGS, IMPORT_RAW_SIGNATURE, IMPORT_SATTRS,
    EXPORT_SATTRS, IMPORT_SIGNATURE, EXPORT_PUBKEY, EXPORT_CERT,
    EXPORT_SIGNATURE, REMOVE_SIGNATURE, LIST_SIGNATURES, GENERATE_DIGEST,
    PRINT_DIGEST, GENERATE_SIGNATURE, DAEMONIZE]

theorem runSwitch_eq_caseExportSattrs (inv : Invocation) (env : Env)
    (hact : actionOf inv = EXPORT_SATTRS) :
    runSwitch inv env = caseExportSattrs inv env := by
  simp [runSwitch, hact, NO_FLAGS, IMPORT_RAW_SIGNATURE, IMPORT_SATTRS,
    EXPORT_SATTRS, IMPORT_SIGNATURE, EXPORT_PUBKEY, EXPORT_CERT,
    EXPORT_SIGNATURE, REMOVE_SIGNATURE, LIST_SIGNATURES, GENERATE_DIGEST,
    PRINT_DIGEST, GENERATE_SIGNATURE, DAEMONIZE]

theorem runSwitch_eq_caseHash (inv : Invocation) (env : Env)
    (hact : actionOf inv = (GENERATE_DIGEST ||| PRINT_DIGEST)) :
    runSwitch inv env = caseHash inv env := by
  simp [runSwitch, hact, NO_FLAGS, IMPORT_RAW_SIGNATURE, IMPORT_SATTRS,
    EXPORT_SATTRS, IMPORT_SIGNATURE, EXPORT_PUBKEY, EXPORT_CERT,
    EXPORT_SIGNATURE, REMOVE_SIGNATURE, LIST_SIGNATURES, GENERATE_DIGEST,
    PRINT_DIGEST, GENERATE_SIGNATURE, DAEMONIZE]

theorem runSwitch_eq_caseExportGenSig (inv : Invocation) (env : Env)
    (hact : actionOf inv = (EXPORT_SIGNATURE ||| GENERATE_SIGNATURE)) :
    runSwitch inv env = caseExportGenSig inv env := by
  simp [runSwitch, hact, NO_FLAGS, IMPORT_RAW_SIGNATURE, IMPORT_SATTRS,
    EXPORT_SATTRS, IMPORT_SIGNATURE, EXPORT_PUBKEY, EXPORT_CERT,
    EXPORT_SIGNATURE, REMOVE_SIGNATURE, LIST_SIGNATURES, GENERATE_DIGEST,
    PRINT_DIGEST, GENERATE_SIGNATURE, DAEMONIZE]

theorem runSwitch_eq_caseNoFlags (inv : Invocation) (env : Env)
    (hact : actionOf inv = NO_FLAGS) :
    runSwitch inv env = caseNoFlags := by
  simp [runSwitch, hact, NO_FLAGS]

theorem caseRemove_out_of_range (inv : Invocation) (env : Env) (fi fo : String)
    (hin : inv.infile = some fi) (hout : inv.outfile = some fo) (hne : fi ≠ fo)
    (hio : env.inputOpenOk = true) (hil : env.inputLoadOk = true)
    (hps : env.parseSignaturesOk = true) (hfe : env.outfileExists = false)
    (hoo : env.outputOpenOk = true) (hol : env.outputLoadOk = true)
    (hoob : inv.signum < 0 ∨ inv.signum ≥ (env.numSignatures : Int)) :
    caseRemove inv env = .error
      ([.openInput fi, .openOutput fo, .clearCert fo, .closeInput,
        .stderr ("Invalid signature number " ++ toString inv.signum
          ++ ". Must be between 0 and "
          ++ toString ((env.numSignatures : Int) - 1) ++ ".")], 1) := by
  simp [caseRemove, check_inputs, open_input, open_output, seqStep, emit,
    hin, hout, hne, hio, hil, hps, hfe, hoo, hol, hoob]

theorem caseRemove_in_range (inv : Invocation) (env : Env) (fi fo : String)
    (hin : inv.infile = some fi) (hout : inv.outfile = some fo) (hne : fi ≠ fo)
    (hio : env.inputOpenOk = true) (hil : env.inputLoadOk = true)
    (hps : env.parseSignaturesOk = true) (hfe : env.outfileExists = false)
    (hoo : env.outputOpenOk = true) (hol : env.outputLoadOk = true)
    (hlo : 0 ≤ inv.signum) (hhi : inv.signum < (env.numSignatures : Int)) :
    caseRemove inv env = .ok
      ([.openInput fi, .openOutput fo, .clearCert fo, .closeInput,
        .removeSignature, .closeOutput fo], 0) := by
  have hcond : ¬(inv.signum < 0 ∨ inv.signum ≥ (env.numSignatures : Int)) := by
    omega
  simp [caseRemove, check_inputs, open_input, open_output, seqStep, emit,
    hin, hout, hne, hio, hil, hps, hfe, hoo, hol, hcond]

theorem caseExportSig_above (inv : Invocation) (env : Env) (fi sg : String)
    (hin : inv.infile = some fi) (hsig : inv.outsig = some sg)
    (hio : env.inputOpenOk = true) (hil : env.inputLoadOk = true)
    (hps : env.parseSignaturesOk = true) (hse : env.outsigExists = false)
    (hgt : inv.signum > (env.numSignatures : Int)) :
    caseExportSig inv env = .error
      ([.openInput fi, .openSigOutput sg,
        .stderr "Invalid signature number."], 1) := by
  simp [caseExportSig, open_input, open_sig_output, seqStep, emit,
    hin, hsig, hio, hil, hps, hse, hgt]

theorem caseExportSig_at_end (inv : Invocation) (env : Env) (fi sg : String)
    (hin : inv.infile = some fi) (hsig : inv.outsig = some sg)
    (hio : env.inputOpenOk = true) (hil : env.inputLoadOk = true)
    (hps : env.parseSignaturesOk = true) (hse : env.outsigExists = false)
    (hle : inv.signum ≤ (env.numSignatures : Int))
    (hge : (if inv.signum < 0 then 0 else inv.signum) ≥ (env.numSignatures : Int)) :
    caseExportSig inv env = .error
      ([.openInput fi, .openSigOutput sg,
        .stderr ("No valid signature "
          ++ toString (if inv.signum < 0 then 0 else inv.signum) ++ ".")], 1) := by
  have hngt : ¬(inv.signum > (env.numSignatures : Int)) := by omega
  simp only [caseExportSig, open_input, open_sig_output, seqStep, emit,
    hin, hsig, hio, hil, hps, hse]
  simp [hngt, hge]

theorem caseExportSig_in_range (inv : Invocation) (env : Env) (fi sg : String)
    (hin : inv.infile = some fi) (hsig : inv.outsig = some sg)
    (hio : env.inputOpenOk = true) (hil : env.inputLoadOk = true)
    (hps : env.parseSignaturesOk = true) (hse : env.outsigExists = false)
    (hlt : (if inv.signum < 0 then 0 else inv.signum) < (env.numSignatures : Int)) :
    caseExportSig inv env = .ok
      ([.openInput fi, .openSigOutput sg,
        .selectSignature (if inv.signum < 0 then 0 else inv.signum),
        .exportSignature, .closeInput, .closeSigOutput], 0) := by
  have hngt : ¬(inv.signum > (env.numSignatures : Int)) := by
    by_cases h : inv.signum < 0
    · simp [h] at hlt
      omega
    · simp [h] at hlt
      omega
  have hnge : ¬((if inv.signum < 0 then 0 else inv.signum) ≥ (env.numSignatures : Int)) := by
    omega
  simp only [caseExportSig, open_input, open_sig_output, seqStep, emit,
    hin, hsig, hio, hil, hps, hse]
  simp [hngt, hnge]

theorem caseImportSig_above (inv : Invocation) (env : Env) (fi fo : String)
    (hin : inv.infile = some fi) (hout : inv.outfile = some fo) (hne : fi ≠ fo)
    (hgt : inv.signum > 1) :
    caseImportSig inv env = .error ([.stderr "Invalid signature number."], 1) := by
  have hgt2 : inv.signum > initial_num_signatures + 1 := by
    unfold initial_num_signatures
    omega
  simp [caseImportSig, check_inputs, seqStep, hin, hout, hne, hgt2]

theorem caseImportSig_le (inv : Invocation) (env : Env) (fi fo si : String)
    (hin : inv.infile = some fi) (hout : inv.outfile = some fo) (hne : fi ≠ fo)
    (hsi : inv.insig = some si)
    (hio : env.inputOpenOk = true) (hil : env.inputLoadOk = true)
    (hps : env.parseSignaturesOk = true) (hfe : env.outfileExists = false)
    (hoo : env.outputOpenOk = true) (hol : env.outputLoadOk = true)
    (hle : inv.signum ≤ 1) :
    caseImportSig inv env = .ok
      ([.openInput fi, .openOutput fo, .clearCert fo, .closeInput,
        .openSigInput si, .parseSignature, .getSigspaceExtendAmount,
        .allocateSignatureSpace, .checkSignatureSpace,
        .insertSignature inv.signum, .closeSigInput, .closeOutput fo], 0) := by
  have hngt : ¬(inv.signum > initial_num_signatures + 1) := by
    unfold initial_num_signatures
    omega
  simp [caseImportSig, check_inputs, open_input, open_output, open_sig_input,
    seqStep, emit, hin, hout, hne, hsi, hio, hil, hps, hfe, hoo, hol, hngt]

theorem caseImportGenSig_cert_missing (inv : Invocation) (env : Env)
    (fi fo : String)
    (hin : inv.infile = some fi) (hout : inv.outfile = some fo) (hne : fi ≠ fo)
    (hcf : env.certFound = false) :
    caseImportGenSig inv env = .error
      ([.findCertificate true false,
        .stderr "pesign: Could not find certificate"], 1) := by
  simp [caseImportGenSig, check_inputs, find_certificate_step,
    find_certificate, seqStep, hin, hout, hne, hcf]

theorem caseImportGenSig_above (inv : Invocation) (env : Env) (fi fo : String)
    (hin : inv.infile = some fi) (hout : inv.outfile = some fo) (hne : fi ≠ fo)
    (hcf : env.certFound = true) (hgt : inv.signum > 1) :
    caseImportGenSig inv env = .error
      ([.findCertificate true true, .stderr "Invalid signature number."], 1) := by
  have hgt2 : inv.signum > initial_num_signatures + 1 := by
    unfold initial_num_signatures
    omega
  simp [caseImportGenSig, check_inputs, find_certificate_step,
    find_certificate, seqStep, hin, hout, hne, hcf, hgt2]

theorem caseImportGenSig_le (inv : Invocation) (env : Env) (fi fo : String)
    (hin : inv.infile = some fi) (hout : inv.outfile = some fo) (hne : fi ≠ fo)
    (hcf : env.certFound = true)
    (hio : env.inputOpenOk = true) (hil : env.inputLoadOk = true)
    (hps : env.parseSignaturesOk = true) (hfe : env.outfileExists = false)
    (hoo : env.outputOpenOk = true) (hol : env.outputLoadOk = true)
    (hle : inv.signum ≤ 1) :
    caseImportGenSig inv env = .ok
      ([.findCertificate true true, .openInput fi, .openOutput fo,
        .clearCert fo, .closeInput, .generateDigest true, .calculateSignatureSpace,
        .allocateSignatureSpace, .generateDigest true, .generateSignature,
        .insertSignature inv.signum, .closeOutput fo], 0) := by
  have hngt : ¬(inv.signum > initial_num_signatures + 1) := by
    unfold initial_num_signatures
    omega
  simp [caseImportGenSig, check_inputs, find_certificate_step,
    find_certificate, open_input, open_output, seqStep, emit,
    hin, hout, hne, hcf, hio, hil, hps, hfe, hoo, hol, hngt]

theorem caseImportRawSattrs_run (inv : Invocation) (env : Env)
    (fi fo rs sa : String)
    (hin : inv.infile = some fi) (hout : inv.outfile = some fo) (hne : fi ≠ fo)
    (hrs : inv.rawsig = some rs) (hsa : inv.insattrs = some sa)
    (hcf : env.certFound = true)
    (hio : env.inputOpenOk = true) (hil : env.inputLoadOk = true)
    (hps : env.parseSignaturesOk = true) (hfe : env.outfileExists = false)
    (hoo : env.outputOpenOk = true) (hol : env.outputLoadOk = true) :
    caseImportRawSattrs inv env = .ok
      ([.findCertificate false true, .openRawsigInput rs, .openSattrInput sa,
        .importRawSignature, .closeSattrInput, .closeRawsigInput,
        .openInput fi, .openOutput fo, .clearCert fo, .closeInput,
        .generateDigest true, .calculateSignatureSpace,
        .allocateSignatureSpace, .generateSignature,
        .insertSignature inv.signum, .closeOutput fo], 0) := by
  simp [caseImportRawSattrs, check_inputs, find_certificate_step,
    find_certificate, open_rawsig_input, open_sattr_input, open_input,
    open_output, seqStep, emit, hin, hout, hne, hrs, hsa, hcf, hio, hil,
    hps, hfe, hoo, hol]

theorem caseExportSattrs_run (inv : Invocation) (env : Env) (fi so : String)
    (hin : inv.infile = some fi) (hso : inv.outsattrs = some so)
    (hio : env.inputOpenOk = true) (hil : env.inputLoadOk = true)
    (hps : env.parseSignaturesOk = true) (hae : env.outsattrsExists = false) :
    caseExportSattrs inv env = .ok
      ([.openInput fi, .openSattrOutput so, .generateDigest true,
        .generateSattrBlob, .closeSattrOutput, .closeInput], 0) := by
  simp [caseExportSattrs, open_input, open_sattr_output, seqStep, emit,
    hin, hso, hio, hil, hps, hae]

theorem caseHash_run (inv : Invocation) (env : Env) (fi : String)
    (hin : inv.infile = some fi)
    (hio : env.inputOpenOk = true) (hil : env.inputLoadOk = true)
    (hps : env.parseSignaturesOk = true) :
    caseHash inv env = .ok
      ([.openInput fi, .generateDigest inv.padding] ++ print_digest env.digest,
       0) := by
  simp [caseHash, open_input, seqStep, emit, hin, hio, hil, hps]

theorem caseExportGenSig_run (inv : Invocation) (env : Env) (fi sg : String)
    (hin : inv.infile = some fi) (hsig : inv.outsig = some sg)
    (hcf : env.certFound = true)
    (hio : env.inputOpenOk = true) (hil : env.inputLoadOk = true)
    (hps : env.parseSignaturesOk = true) (hse : env.outsigExists = false) :
    caseExportGenSig inv env = .ok
      ([.findCertificate true true, .openInput fi, .openSigOutput sg,
        .generateDigest true, .generateSignature, .exportSignature], 0) := by
  simp [caseExportGenSig, find_certificate_step, find_certificate,
    open_input, open_sig_output, seqStep, emit, hin, hsig, hcf, hio, hil,
    hps, hse]

theorem runMain_of_switch_error (inv : Invocation) (env : Env) (r : Run)
    (hpre : preSwitch inv env = none)
    (hrs : runSwitch inv env = .error r) :
    runMain inv env = r := by
  rw [runMain_of_preSwitch_none inv env hpre, hrs]

theorem runMain_of_switch_ok (inv : Invocation) (env : Env)
    (t : List Event) (rc : Int)
    (hpre : preSwitch inv env = none)
    (hrs : runSwitch inv env = .ok (t, rc))
    (hsd : env.nssShutdownOk = true) (hrc : 0 ≤ rc) :
    runMain inv env = (t, 0) := by
  rw [runMain_of_preSwitch_none inv env hpre, hrs]
  have : ¬(rc < 0) := by omega
  simp [hsd, this]

/-- An environment like `baseEnv`, except that the certificate store
cannot resolve the configured nickname. -/
def noCertEnv : Env :=
  { baseEnv with certFound := false }

/-- C2: for every sign-and-embed invocation whose certificate nickname
cannot be resolved by the certificate store, the program exits with code 1
after a not-found error and performs no event that creates, truncates or
writes any file: `find_certificate` (line 890) runs before `open_output`
(line 902), so the output file is never created. -/
theorem c2_cert_not_found_no_output (inv : Invocation) (env : Env)
    (fi fo : String)
    (hact : actionOf inv = (IMPORT_SIGNATURE ||| GENERATE_SIGNATURE))
    (hin : inv.infile = some fi) (hout : inv.outfile = some fo)
    (hne : fi ≠ fo) (hcn : inv.certname.isSome)
    (hnss : env.nssInitOk = true) (hoid : env.registerOidsOk = true)
    (hdg : set_digest_parameters inv.digestName = 0)
    (hcf : env.certFound = false) :
    runMain inv env =
      ([.findCertificate true false,
        .stderr "pesign: Could not find certificate"], 1)
    ∧ ∀ e ∈ (runMain inv env).1, e.writesTo = none := by
  have hpre := preSwitch_eq_none inv env hnss hoid hdg (fun _ => hcn)
  have hcase := caseImportGenSig_cert_missing inv env fi fo hin hout hne hcf
  have hrun := runMain_of_switch_error inv env _ hpre
    (by rw [runSwitch_eq_caseImportGenSig inv env hact, hcase])
  refine ⟨hrun, ?_⟩
  rw [hrun]
  decide

/-- C2 witness: a concrete sign-and-embed invocation against a store
that cannot resolve the nickname. -/
theorem c2_witness :
    runMain signEmbedInv noCertEnv =
      ([.findCertificate true false,
        .stderr "pesign: Could not find certificate"], 1)
    ∧ ∀ e ∈ (runMain signEmbedInv noCertEnv).1, e.writesTo = none :=
  c2_cert_not_found_no_output signEmbedInv noCertEnv "in.efi" "out.efi"
    (by decide) rfl rfl (by decide) (by decide) rfl rfl (by decide) rfl

/-- C9: every action that needs both an input and an output image file
(`IMPORT_RAW_SIGNATURE|IMPORT_SATTRS`, `IMPORT_SIGNATURE`,
`REMOVE_SIGNATURE`, `IMPORT_SIGNATURE|GENERATE_SIGNATURE`) calls
`check_inputs` first; when the input path equals the output path the run
exits 1 with the in-place-editing error before any file is opened. -/
theorem c9_in_place_rejected (inv : Invocation) (env : Env) (f : String)
    (hact : actionOf inv = (IMPORT_RAW_SIGNATURE ||| IMPORT_SATTRS)
          ∨ actionOf inv = IMPORT_SIGNATURE
          ∨ actionOf inv = REMOVE_SIGNATURE
          ∨ actionOf inv = (IMPORT_SIGNATURE ||| GENERATE_SIGNATURE))
    (hin : inv.infile = some f) (hout : inv.outfile = some f)
    (hnss : env.nssInitOk = true) (hoid : env.registerOidsOk = true)
    (hdg : set_digest_parameters inv.digestName = 0)
    (hsc : inv.sign = true → inv.certname.isSome) :
    runMain inv env =
      ([.stderr "pesign: in-place file editing is not yet supported"], 1)
    ∧ ∀ e ∈ (runMain inv env).1, e.touchesAnyFile = false := by
  have hpre := preSwitch_eq_none inv env hnss hoid hdg hsc
  have hck : check_inputs inv =
      .error ([.stderr "pesign: in-place file editing is not yet supported"], 1) := by
    simp [check_inputs, hin, hout]
  have hrun : runMain inv env =
      ([.stderr "pesign: in-place file editing is not yet supported"], 1) := by
    rcases hact with h | h | h | h
    · exact runMain_of_switch_error inv env _ hpre
        (by rw [runSwitch_eq_caseImportRawSattrs inv env h]
            simp [caseImportRawSattrs, seqStep, hck])
    · exact runMain_of_switch_error inv env _ hpre
        (by rw [runSwitch_eq_caseImportSig inv env h]
            simp [caseImportSig, seqStep, hck])
    · exact runMain_of_switch_error inv env _ hpre
        (by rw [runSwitch_eq_caseRemove inv env h]
            simp [caseRemove, seqStep, hck])
    · exact runMain_of_switch_error inv env _ hpre
        (by rw [runSwitch_eq_caseImportGenSig inv env h]
            simp [caseImportGenSig, seqStep, hck])
  refine ⟨hrun, ?_⟩
  rw [hrun]
  decide

/-- C9 witness: a concrete remove invocation with the same path for input
and output. -/
theorem c9_witness :
    runMain { baseInv with
      remove := true, infile := some "same.efi", outfile := some "same.efi" }
      baseEnv =
      ([.stderr "pesign: in-place file editing is not yet supported"], 1)
    ∧ ∀ e ∈ (runMain { baseInv with
        remove := true, infile := some "same.efi",
        outfile := some "same.efi" } baseEnv).1,
        e.touchesAnyFile = false :=
  c9_in_place_rejected _ baseEnv "same.efi"
    (Or.inr (Or.inr (Or.inl (by decide)))) rfl rfl rfl rfl (by decide)
    (by decide)

/-- C1 counterexample: a remove invocation with signature number 0 on an
image with no signatures is out of range, and the run does exit with code
1 — but the output file has already been created, truncated, filled with a
copy of the input, and had its certificate table cleared (`open_output`,
lines 848 and 143-182, runs before the bounds check at lines 850-858).
This contradicts the claim that no output file is created or truncated
before the failure. -/
theorem c1_counterexample :
    (runMain removeInv baseEnv).2 = 1
    ∧ Event.openOutput "out.efi" ∈ (runMain removeInv baseEnv).1
    ∧ Event.clearCert "out.efi" ∈ (runMain removeInv baseEnv).1 := by
  decide

/-- C1 amended: for the remove action an out-of-range signature number
(`i < 0` or `i ≥ len`) exits 1 with an invalid-signature error, the
removal is never performed and the input image is never written — but the
output file has by then already been created and truncated.  For the
export-signature action, indices with `max i 0 ≥ len` exit 1 with the
signature output file already created and truncated; an index `i < 0`
with a nonempty signature list is clamped to 0 and the export succeeds
with exit code 0. -/
theorem c1_out_of_range_behavior (inv : Invocation) (env : Env)
    (fi fo sg : String)
    (hnss : env.nssInitOk = true) (hoid : env.registerOidsOk = true)
    (hdg : set_digest_parameters inv.digestName = 0)
    (hsgn : inv.sign = false)
    (hio : env.inputOpenOk = true) (hil : env.inputLoadOk = true)
    (hps : env.parseSignaturesOk = true)
    (hsd : env.nssShutdownOk = true)
    (hin : inv.infile = some fi) :
    (actionOf inv = REMOVE_SIGNATURE → inv.outfile = some fo → fi ≠ fo →
     env.outfileExists = false → env.outputOpenOk = true →
     env.outputLoadOk = true →
     (inv.signum < 0 ∨ inv.signum ≥ (env.numSignatures : Int)) →
     runMain inv env =
       ([.openInput fi, .openOutput fo, .clearCert fo, .closeInput,
         .stderr ("Invalid signature number " ++ toString inv.signum
           ++ ". Must be between 0 and "
           ++ toString ((env.numSignatures : Int) - 1) ++ ".")], 1)
     ∧ Event.openOutput fo ∈ (runMain inv env).1
     ∧ Event.removeSignature ∉ (runMain inv env).1
     ∧ ∀ e ∈ (runMain inv env).1, e.writesTo ≠ some fi)
    ∧
    (actionOf inv = EXPORT_SIGNATURE → inv.outsig = some sg → sg ≠ fi →
     env.outsigExists = false →
     (if inv.signum < 0 then 0 else inv.signum) ≥ (env.numSignatures : Int) →
     (runMain inv env).2 = 1
     ∧ Event.openSigOutput sg ∈ (runMain inv env).1
     ∧ Event.exportSignature ∉ (runMain inv env).1
     ∧ ∀ e ∈ (runMain inv env).1, e.writesTo ≠ some fi)
    ∧
    (actionOf inv = EXPORT_SIGNATURE → inv.outsig = some sg →
     env.outsigExists = false →
     inv.signum < 0 → 0 < env.numSignatures →
     runMain inv env =
       ([.openInput fi, .openSigOutput sg, .selectSignature 0,
         .exportSignature, .closeInput, .closeSigOutput], 0)) := by
  have hpre := preSwitch_eq_none inv env hnss hoid hdg
    (fun h => absurd h (by rw [hsgn]; exact Bool.false_ne_true))
  refine ⟨?_, ?_, ?_⟩
  · intro hact hout hne hfe hoo hol hoob
    have hcase := caseRemove_out_of_range inv env fi fo hin hout hne
      hio hil hps hfe hoo hol hoob
    have hrun := runMain_of_switch_error inv env _ hpre
      (by rw [runSwitch_eq_caseRemove inv env hact, hcase])
    refine ⟨hrun, ?_, ?_, ?_⟩
    · rw [hrun]
      simp
    · rw [hrun]
      simp
    · rw [hrun]
      intro e he
      have hfne : fo ≠ fi := Ne.symm hne
      fin_cases he <;> simp [Event.writesTo, hfne]
  · intro hact hsig hne hse hfail
    by_cases hgt : inv.signum > (env.numSignatures : Int)
    · have hcase := caseExportSig_above inv env fi sg hin hsig hio hil hps hse hgt
      have hrun := runMain_of_switch_error inv env _ hpre
        (by rw [runSwitch_eq_caseExportSig inv env hact, hcase])
      refine ⟨by rw [hrun], ?_, ?_, ?_⟩
      · rw [hrun]
        simp
      · rw [hrun]
        simp
      · rw [hrun]
        intro e he
        fin_cases he <;> simp [Event.writesTo, hne]
    · have hcase := caseExportSig_at_end inv env fi sg hin hsig hio hil hps hse
        (by omega) hfail
      have hrun := runMain_of_switch_error inv env _ hpre
        (by rw [runSwitch_eq_caseExportSig inv env hact, hcase])
      refine ⟨by rw [hrun], ?_, ?_, ?_⟩
      · rw [hrun]
        simp
      · rw [hrun]
        simp
      · rw [hrun]
        intro e he
        fin_cases he <;> simp [Event.writesTo, hne]
  · intro hact hsig hse hneg hpos
    have hlt : (if inv.signum < 0 then 0 else inv.signum)
        < (env.numSignatures : Int) := by
      rw [if_pos hneg]
      exact_mod_cast hpos
    have hcase := caseExportSig_in_range inv env fi sg hin hsig hio hil hps
      hse hlt
    rw [if_pos hneg] at hcase
    exact runMain_of_switch_ok inv env _ 0 hpre
      (by rw [runSwitch_eq_caseExportSig inv env hact, hcase]) hsd le_rfl

/-- C1 witness: the remove conjunct of `c1_out_of_range_behavior` at the
concrete out-of-range invocation. -/
theorem c1_witness :
    runMain removeInv baseEnv =
      ([.openInput "in.efi", .openOutput "out.efi", .clearCert "out.efi",
        .closeInput,
        .stderr "Invalid signature number 0. Must be between 0 and -1."], 1)
    ∧ Event.openOutput "out.efi" ∈ (runMain removeInv baseEnv).1
    ∧ Event.removeSignature ∉ (runMain removeInv baseEnv).1
    ∧ ∀ e ∈ (runMain removeInv baseEnv).1, e.writesTo ≠ some "in.efi" := by
  have h := (c1_out_of_range_behavior removeInv baseEnv "in.efi" "out.efi"
    "unused.sig" rfl rfl (by decide) rfl rfl rfl rfl rfl rfl).1
    (by decide) rfl (by decide) rfl rfl rfl (by decide)
  simpa using h

/-- C3 counterexample: in the concrete sign-and-embed run the trace ends
with a `generate_digest` call placed after `allocate_signature_space`
(line 908 of pesign.c, after the growth at line 907), and that second
digest is the one in effect when `generate_signature` runs.  This
contradicts the claim that the digest is not recomputed after the file has
been grown. -/
theorem c3_counterexample :
    (runMain signEmbedInv baseEnv).1 =
      [.findCertificate true true, .openInput "in.efi", .openOutput "out.efi",
       .clearCert "out.efi", .closeInput, .generateDigest true,
       .calculateSignatureSpace, .allocateSignatureSpace]
      ++ Event.generateDigest true ::
      [.generateSignature, .insertSignature 0, .closeOutput "out.efi"] := by
  decide

/-- C3 amended: in the sign-and-embed pipeline the Authenticode digest is
computed over the pre-growth image before signature space is allocated
(line 904) and is then computed a second time after the growth (line 908);
`generate_signature` runs after that recomputation.  In the
raw-signature-import pipeline the digest is computed only once, before
allocation (line 762), and is not recomputed after growth. -/
theorem c3_digest_recompute (inv : Invocation) (env : Env)
    (fi fo rs sa : String)
    (hnss : env.nssInitOk = true) (hoid : env.registerOidsOk = true)
    (hdg : set_digest_parameters inv.digestName = 0)
    (hio : env.inputOpenOk = true) (hil : env.inputLoadOk = true)
    (hps : env.parseSignaturesOk = true) (hfe : env.outfileExists = false)
    (hoo : env.outputOpenOk = true) (hol : env.outputLoadOk = true)
    (hsd : env.nssShutdownOk = true) (hcf : env.certFound = true)
    (hin : inv.infile = some fi) (hout : inv.outfile = some fo)
    (hne : fi ≠ fo) :
    (actionOf inv = (IMPORT_SIGNATURE ||| GENERATE_SIGNATURE) →
     inv.certname.isSome → inv.signum ≤ 1 →
     runMain inv env =
       ([.findCertificate true true, .openInput fi, .openOutput fo,
         .clearCert fo, .closeInput, .generateDigest true,
         .calculateSignatureSpace, .allocateSignatureSpace,
         .generateDigest true, .generateSignature,
         .insertSignature inv.signum, .closeOutput fo], 0))
    ∧
    (actionOf inv = (IMPORT_RAW_SIGNATURE ||| IMPORT_SATTRS) →
     inv.sign = false → inv.rawsig = some rs → inv.insattrs = some sa →
     runMain inv env =
       ([.findCertificate false true, .openRawsigInput rs,
         .openSattrInput sa, .importRawSignature, .closeSattrInput,
         .closeRawsigInput, .openInput fi, .openOutput fo, .clearCert fo,
         .closeInput, .generateDigest true, .calculateSignatureSpace,
         .allocateSignatureSpace, .generateSignature,
         .insertSignature inv.signum, .closeOutput fo], 0)) := by
  constructor
  · intro hact hcn hle
    have hpre := preSwitch_eq_none inv env hnss hoid hdg (fun _ => hcn)
    have hcase := caseImportGenSig_le inv env fi fo hin hout hne hcf
      hio hil hps hfe hoo hol hle
    exact runMain_of_switch_ok inv env _ 0 hpre
      (by rw [runSwitch_eq_caseImportGenSig inv env hact, hcase]) hsd le_rfl
  · intro hact hsgn hrs hsa
    have hpre := preSwitch_eq_none inv env hnss hoid hdg
      (fun h => absurd h (by rw [hsgn]; exact Bool.false_ne_true))
    have hcase := caseImportRawSattrs_run inv env fi fo rs sa hin hout hne
      hrs hsa hcf hio hil hps hfe hoo hol
    exact runMain_of_switch_ok inv env _ 0 hpre
      (by rw [runSwitch_eq_caseImportRawSattrs inv env hact, hcase]) hsd le_rfl

/-- C3 witness: the sign-and-embed conjunct of `c3_digest_recompute` at
the concrete invocation, yielding the full ordered trace with the digest
recomputation between allocation and signing. -/
theorem c3_witness :
    runMain signEmbedInv baseEnv =
      ([.findCertificate true true, .openInput "in.efi",
        .openOutput "out.efi", .clearCert "out.efi", .closeInput,
        .generateDigest true, .calculateSignatureSpace,
        .allocateSignatureSpace, .generateDigest true, .generateSignature,
        .insertSignature 0, .closeOutput "out.efi"], 0) := by
  have h := (c3_digest_recompute signEmbedInv baseEnv "in.efi" "out.efi"
    "unused.raw" "unused.sattrs" rfl rfl (by decide) rfl rfl rfl rfl rfl rfl
    rfl rfl rfl rfl (by decide)).1 (by decide) (by decide) (by decide)
  simpa using h

/-- A signature-import invocation asking for insertion index 2. -/
def importSigInv : Invocation :=
  { baseInv with
    insig := some "sig.der", infile := some "in.efi",
    outfile := some "out.efi", signum := 2 }

/-- An environment whose input image carries five parsed signatures. -/
def fiveSigEnv : Env :=
  { baseEnv with numSignatures := 5 }

/-- C7 counterexample: importing at index 2 into an image with five
signatures is valid by the claim (0 ≤ 2 ≤ 5), yet the run exits 1 with an
invalid-signature-number error and never inserts: the check at line 781
runs before `open_input` parses the input, so it compares the index
against the initial signature count 0 (rejecting every index above 1),
not against the count parsed from the input file. -/
theorem c7_counterexample :
    runMain importSigInv fiveSigEnv = ([.stderr "Invalid signature number."], 1)
    ∧ (0 ≤ importSigInv.signum
       ∧ importSigInv.signum ≤ (fiveSigEnv.numSignatures : Int))
    ∧ Event.insertSignature importSigInv.signum
        ∉ (runMain importSigInv fiveSigEnv).1 := by
  decide

/-- C7 amended: in both the signature-import and the sign-and-embed
pipelines, the insertion-index check compares the requested index against
the pre-parse signature count (0) plus one, because it runs before
`open_input` parses the input image (lines 781, 897): every index greater
than 1 is rejected with an error before any file is opened, and every
index at most 1 — including negative indices — passes the check
regardless of how many signatures the input image actually holds, after
which `insert_signature` is invoked with it. -/
theorem c7_insert_index_check (inv : Invocation) (env : Env)
    (fi fo si : String)
    (hnss : env.nssInitOk = true) (hoid : env.registerOidsOk = true)
    (hdg : set_digest_parameters inv.digestName = 0)
    (hio : env.inputOpenOk = true) (hil : env.inputLoadOk = true)
    (hps : env.parseSignaturesOk = true) (hfe : env.outfileExists = false)
    (hoo : env.outputOpenOk = true) (hol : env.outputLoadOk = true)
    (hsd : env.nssShutdownOk = true)
    (hin : inv.infile = some fi) (hout : inv.outfile = some fo)
    (hne : fi ≠ fo) :
    (actionOf inv = IMPORT_SIGNATURE → inv.sign = false →
     inv.insig = some si →
     (inv.signum > 1 →
      runMain inv env = ([.stderr "Invalid signature number."], 1))
     ∧ (inv.signum ≤ 1 →
        Event.insertSignature inv.signum ∈ (runMain inv env).1))
    ∧
    (actionOf inv = (IMPORT_SIGNATURE ||| GENERATE_SIGNATURE) →
     inv.certname.isSome → env.certFound = true →
     (inv.signum > 1 →
      runMain inv env =
        ([.findCertificate true true, .stderr "Invalid signature number."], 1))
     ∧ (inv.signum ≤ 1 →
        Event.insertSignature inv.signum ∈ (runMain inv env).1)) := by
  constructor
  · intro hact hsgn hsi
    have hpre := preSwitch_eq_none inv env hnss hoid hdg
      (fun h => absurd h (by rw [hsgn]; exact Bool.false_ne_true))
    constructor
    · intro hgt
      exact runMain_of_switch_error inv env _ hpre
        (by rw [runSwitch_eq_caseImportSig inv env hact,
                caseImportSig_above inv env fi fo hin hout hne hgt])
    · intro hle
      have hcase := caseImportSig_le inv env fi fo si hin hout hne hsi
        hio hil hps hfe hoo hol hle
      rw [runMain_of_switch_ok inv env _ 0 hpre
        (by rw [runSwitch_eq_caseImportSig inv env hact, hcase]) hsd le_rfl]
      simp
  · intro hact hcn hcf
    have hpre := preSwitch_eq_none inv env hnss hoid hdg (fun _ => hcn)
    constructor
    · intro hgt
      exact runMain_of_switch_error inv env _ hpre
        (by rw [runSwitch_eq_caseImportGenSig inv env hact,
                caseImportGenSig_above inv env fi fo hin hout hne hcf hgt])
    · intro hle
      have hcase := caseImportGenSig_le inv env fi fo hin hout hne hcf
        hio hil hps hfe hoo hol hle
      rw [runMain_of_switch_ok inv env _ 0 hpre
        (by rw [runSwitch_eq_caseImportGenSig inv env hact, hcase]) hsd le_rfl]
      simp

/-- C7 witness: the import conjunct of `c7_insert_index_check` at the
concrete invocation with index 2, which the program rejects although the
input image holds five signatures. -/
theorem c7_witness :
    runMain importSigInv fiveSigEnv =
      ([.stderr "Invalid signature number."], 1) :=
  ((c7_insert_index_check importSigInv fiveSigEnv "in.efi" "out.efi"
      "sig.der" rfl rfl (by decide) rfl rfl rfl rfl rfl rfl rfl rfl rfl
      (by decide)).1 (by decide) rfl rfl).1 (by decide)

/-- The action values handled by a case of the switch (lines 736-915). -/
def handledActions : List Nat :=
  [NO_FLAGS, IMPORT_RAW_SIGNATURE ||| IMPORT_SATTRS, EXPORT_SATTRS,
   IMPORT_SIGNATURE, EXPORT_PUBKEY, EXPORT_CERT, EXPORT_SIGNATURE,
   REMOVE_SIGNATURE, LIST_SIGNATURES, GENERATE_DIGEST ||| PRINT_DIGEST,
   EXPORT_SIGNATURE ||| GENERATE_SIGNATURE,
   IMPORT_SIGNATURE ||| GENERATE_SIGNATURE, DAEMONIZE]

theorem runSwitch_default (inv : Invocation) (env : Env)
    (hact : actionOf inv ∉ handledActions) :
    runSwitch inv env = .error (incompatibleEvents (actionOf inv), 1) := by
  simp [handledActions, NO_FLAGS, IMPORT_RAW_SIGNATURE, IMPORT_SATTRS,
    EXPORT_SATTRS, IMPORT_SIGNATURE, EXPORT_PUBKEY, EXPORT_CERT,
    EXPORT_SIGNATURE, REMOVE_SIGNATURE, LIST_SIGNATURES, GENERATE_DIGEST,
    PRINT_DIGEST, GENERATE_SIGNATURE, DAEMONIZE, not_or] at hact
  obtain ⟨h0, h1, h2, h3, h4, h5, h6, h7, h8, h9, h10, h11, h12⟩ := hact
  simp [runSwitch, NO_FLAGS, IMPORT_RAW_SIGNATURE, IMPORT_SATTRS,
    EXPORT_SATTRS, IMPORT_SIGNATURE, EXPORT_PUBKEY, EXPORT_CERT,
    EXPORT_SIGNATURE, REMOVE_SIGNATURE, LIST_SIGNATURES, GENERATE_DIGEST,
    PRINT_DIGEST, GENERATE_SIGNATURE, DAEMONIZE,
    h0, h1, h2, h3, h4, h5, h6, h7, h8, h9, h10, h11, h12]

theorem print_flag_name_all_stderr (flag : Nat) :
    ∀ e ∈ print_flag_name flag, ∃ s, e = Event.stderr s := by
  intro e he
  unfold print_flag_name at he
  simp only [List.mem_map] at he
  obtain ⟨p, _, rfl⟩ := he
  exact ⟨_, rfl⟩

theorem incompatible_all_stderr (action : Nat) :
    ∀ e ∈ incompatibleEvents action, ∃ s, e = Event.stderr s := by
  intro e he
  unfold incompatibleEvents at he
  rcases List.mem_append.mp he with he | he
  · rcases List.mem_append.mp he with he | he
    · rcases List.mem_singleton.mp he with rfl
      exact ⟨_, rfl⟩
    · obtain ⟨l, hl, hel⟩ := List.mem_flatten.mp he
      obtain ⟨i, _, rfl⟩ := List.mem_map.mp hl
      exact print_flag_name_all_stderr i e hel
  · rcases List.mem_singleton.mp he with rfl
    exact ⟨_, rfl⟩

theorem flag_names_bits : ∀ p ∈ flag_names, p.1 ∈ flagBits := by decide

theorem mem_incompatible (action flag : Nat) (name : String)
    (hmem : (flag, name) ∈ flag_names) (hbit : flag ∈ flagBits)
    (h : action &&& flag ≠ 0) :
    Event.stderr (name ++ " ") ∈ incompatibleEvents action := by
  unfold incompatibleEvents
  refine List.mem_append_left _ (List.mem_append_right _ ?_)
  refine List.mem_flatten.mpr ⟨print_flag_name flag, ?_, ?_⟩
  · refine List.mem_map_of_mem _ (List.mem_filter.mpr ⟨hbit, ?_⟩)
    simp [bne_iff_ne]
    exact h
  · unfold print_flag_name
    exact List.mem_map_of_mem _ (List.mem_filter.mpr ⟨hmem, by simp⟩)

/-- C4: every combination of requested action flags that matches no known
pipeline reaches the `default` switch case (lines 916-923): the run exits
with code 1, its whole trace consists of stderr writes (no input or output
file is opened, created, truncated or written), and the name of every
requested action flag appears in the printed listing. -/
theorem c4_unknown_action (inv : Invocation) (env : Env)
    (hact : actionOf inv ∉ handledActions)
    (hnss : env.nssInitOk = true) (hoid : env.registerOidsOk = true)
    (hdg : set_digest_parameters inv.digestName = 0)
    (hsc : inv.sign = true → inv.certname.isSome) :
    runMain inv env = (incompatibleEvents (actionOf inv), 1)
    ∧ (∀ e ∈ (runMain inv env).1, e.touchesAnyFile = false)
    ∧ (∀ p ∈ flag_names, actionOf inv &&& p.1 ≠ 0 →
        Event.stderr (p.2 ++ " ") ∈ (runMain inv env).1) := by
  have hpre := preSwitch_eq_none inv env hnss hoid hdg hsc
  have hrun := runMain_of_switch_error inv env _ hpre
    (runSwitch_default inv env hact)
  refine ⟨hrun, ?_, ?_⟩
  · rw [hrun]
    intro e he
    obtain ⟨s, rfl⟩ := incompatible_all_stderr (actionOf inv) e he
    rfl
  · rw [hrun]
    intro p hp hbit
    exact mem_incompatible (actionOf inv) p.1 p.2 hp (flag_names_bits p hp) hbit

/-- An invocation requesting both remove and list: no pipeline handles
the combination `REMOVE_SIGNATURE|LIST_SIGNATURES`. -/
def conflictInv : Invocation :=
  { baseInv with
    remove := true, list := true, infile := some "a.efi",
    outfile := some "b.efi" }

/-- C4 witness: `c4_unknown_action` at the concrete remove-plus-list
invocation. -/
theorem c4_witness :
    runMain conflictInv baseEnv =
      (incompatibleEvents (actionOf conflictInv), 1)
    ∧ (∀ e ∈ (runMain conflictInv baseEnv).1, e.touchesAnyFile = false)
    ∧ (∀ p ∈ flag_names, actionOf conflictInv &&& p.1 ≠ 0 →
        Event.stderr (p.2 ++ " ") ∈ (runMain conflictInv baseEnv).1) :=
  c4_unknown_action conflictInv baseEnv (by decide) rfl rfl (by decide)
    (by decide)

theorem hexByte_length (b : Nat) : (hexByte b).length = 2 := rfl

theorem hexConcat_length (bs : List Nat) :
    (hexConcat bs).length = 2 * bs.length := by
  induction bs with
  | nil => rfl
  | cons b r ih =>
    simp [hexConcat, String.length_append, hexByte_length, ih]
    omega

theorem hexDigitChar_mem :
    ∀ n, n < 16 → hexDigitChar n ∈ "0123456789abcdef".data := by
  decide

theorem hexByte_chars (b : Nat) (h : b < 256) :
    ∀ c ∈ (hexByte b).data, c ∈ "0123456789abcdef".data := by
  intro c hc
  have hdata : (hexByte b).data
      = [hexDigitChar (b / 16), hexDigitChar (b % 16)] := rfl
  rw [hdata] at hc
  have hdiv : b / 16 < 16 := Nat.div_lt_of_lt_mul (by omega)
  have hmod : b % 16 < 16 := Nat.mod_lt _ (by omega)
  rcases List.mem_cons.mp hc with rfl | hc
  · exact hexDigitChar_mem _ hdiv
  · rcases List.mem_singleton.mp hc with rfl
    exact hexDigitChar_mem _ hmod

theorem hexConcat_chars (bs : List Nat) (h : ∀ b ∈ bs, b < 256) :
    ∀ c ∈ (hexConcat bs).data, c ∈ "0123456789abcdef".data := by
  induction bs with
  | nil =>
    intro c hc
    rw [show (hexConcat []).data = [] from rfl] at hc
    exact absurd hc (List.not_mem_nil c)
  | cons b r ih =>
    intro c hc
    rw [show hexConcat (b :: r) = hexByte b ++ hexConcat r from rfl,
      String.data_append] at hc
    rcases List.mem_append.mp hc with hc | hc
    · exact hexByte_chars b (h b (List.mem_cons_self b r)) c hc
    · exact ih (fun x hx => h x (List.mem_cons_of_mem b hx)) c hc

theorem stdoutString_digest (bs : List Nat) :
    stdoutString (bs.map (fun b => Event.stdout (hexByte b))
        ++ [Event.stdout newline])
      = hexConcat bs ++ newline := by
  induction bs with
  | nil => simp [stdoutString, hexConcat, String.empty_append]
  | cons b r ih =>
    simp only [List.map_cons, List.cons_append]
    rw [show stdoutString (Event.stdout (hexByte b) ::
        (r.map (fun x => Event.stdout (hexByte x)) ++ [Event.stdout newline]))
      = hexByte b ++ stdoutString (r.map (fun x => Event.stdout (hexByte x))
          ++ [Event.stdout newline]) from rfl]
    rw [ih, show hexConcat (b :: r) = hexByte b ++ hexConcat r from rfl,
      String.append_assoc]

/-- C6: the hash action with digest algorithm sha256 prints exactly
`hash: `, then two lowercase hexadecimal characters per digest byte —
64 characters for the 32-byte sha256 digest — then a newline, and exits
with code 0 (`print_digest`, lines 380-396). -/
theorem c6_hash_prints_hex (inv : Invocation) (env : Env) (fi : String)
    (hact : actionOf inv = (GENERATE_DIGEST ||| PRINT_DIGEST))
    (hsgn : inv.sign = false)
    (hnss : env.nssInitOk = true) (hoid : env.registerOidsOk = true)
    (hdgname : inv.digestName = "sha256")
    (hio : env.inputOpenOk = true) (hil : env.inputLoadOk = true)
    (hps : env.parseSignaturesOk = true) (hsd : env.nssShutdownOk = true)
    (hin : inv.infile = some fi)
    (hlen : env.digest.length = 32)
    (hbyte : ∀ b ∈ env.digest, b < 256) :
    runMain inv env =
      ([.openInput fi, .generateDigest inv.padding]
        ++ print_digest env.digest, 0)
    ∧ stdoutString (runMain inv env).1
        = "hash: " ++ (hexConcat env.digest ++ newline)
    ∧ (hexConcat env.digest).length = 64
    ∧ ∀ c ∈ (hexConcat env.digest).data, c ∈ "0123456789abcdef".data := by
  have hdg : set_digest_parameters inv.digestName = 0 := by
    rw [hdgname]
    decide
  have hpre := preSwitch_eq_none inv env hnss hoid hdg
    (fun h => absurd h (by rw [hsgn]; exact Bool.false_ne_true))
  have hcase := caseHash_run inv env fi hin hio hil hps
  have hrun := runMain_of_switch_ok inv env _ 0 hpre
    (by rw [runSwitch_eq_caseHash inv env hact, hcase]) hsd le_rfl
  refine ⟨hrun, ?_, ?_, hexConcat_chars env.digest hbyte⟩
  · rw [hrun]
    simp only [print_digest, List.cons_append, List.nil_append,
      List.append_assoc]
    rw [show stdoutString (Event.openInput fi :: Event.generateDigest
        inv.padding :: Event.stdout "hash: " ::
        (env.digest.map (fun b => Event.stdout (hexByte b))
          ++ [Event.stdout newline]))
      = "hash: " ++ stdoutString (env.digest.map
          (fun b => Event.stdout (hexByte b)) ++ [Event.stdout newline])
      from rfl]
    rw [stdoutString_digest]
  · rw [hexConcat_length, hlen]

/-- A hash invocation on a concrete input image. -/
def hashInv : Invocation :=
  { baseInv with hash := true, infile := some "in.efi" }

/-- An environment whose digest engine yields a concrete 32-byte sha256
digest. -/
def sha256Env : Env :=
  { baseEnv with digest := List.range 32 }

/-- C6 witness: `c6_hash_prints_hex` at the concrete 32-byte digest. -/
theorem c6_witness :
    runMain hashInv sha256Env =
      ([.openInput "in.efi", .generateDigest false]
        ++ print_digest sha256Env.digest, 0)
    ∧ stdoutString (runMain hashInv sha256Env).1
        = "hash: " ++ (hexConcat sha256Env.digest ++ newline)
    ∧ (hexConcat sha256Env.digest).length = 64
    ∧ ∀ c ∈ (hexConcat sha256Env.digest).data,
        c ∈ "0123456789abcdef".data :=
  c6_hash_prints_hex hashInv sha256Env "in.efi" (by decide) rfl rfl rfl rfl
    rfl rfl rfl rfl rfl (by decide) (by decide)

theorem runMain_of_preSwitch_some (inv : Invocation) (env : Env) (r : Run)
    (hpre : preSwitch inv env = some r) :
    runMain inv env = r := by
  unfold runMain
  rw [hpre]

theorem preSwitch_digest_unknown (inv : Invocation) (env : Env)
    (hnss : env.nssInitOk = true) (hoid : env.registerOidsOk = true)
    (hbad : set_digest_parameters inv.digestName < 0)
    (hnh : inv.digestName ≠ "help") :
    preSwitch inv env =
      some ([.stderr ("Digest " ++ inv.digestName ++ " not found.")], 1) := by
  unfold preSwitch
  rw [hnss, hoid]
  simp [hbad, hnh]

theorem preSwitch_digest_help (inv : Invocation) (env : Env)
    (hnss : env.nssInitOk = true) (hoid : env.registerOidsOk = true)
    (hh : inv.digestName = "help") :
    preSwitch inv env = some ([], 0) := by
  unfold preSwitch
  rw [hnss, hoid, hh]
  simp
  decide

/-- A list invocation given the digest name help. -/
def listHelpInv : Invocation :=
  { baseInv with list := true, infile := some "in.efi", digestName := "help" }

/-- C8 counterexample: the digest name help is not one of
sha1, sha256, sha384, sha512 (`set_digest_parameters` rejects it), yet the
invocation exits with code 0 and prints no digest-not-found report:
line 701 executes `exit(!is_help)`, which is `exit(0)` for help.  This
contradicts the claim that every unsupported digest name reports
not-found and exits non-zero. -/
theorem c8_counterexample :
    runMain listHelpInv baseEnv = ([], 0)
    ∧ set_digest_parameters listHelpInv.digestName < 0 := by
  decide

/-- C8 amended: `set_digest_parameters` succeeds exactly on the names
sha1, sha256, sha384, sha512; every other digest name except help makes
the program print the digest-not-found report and exit 1, while help
exits 0 with no report (lines 694-702). -/
theorem c8_digest_names (inv : Invocation) (env : Env)
    (hnss : env.nssInitOk = true) (hoid : env.registerOidsOk = true) :
    (set_digest_parameters inv.digestName = 0 ↔
      (inv.digestName = "sha1" ∨ inv.digestName = "sha256" ∨
       inv.digestName = "sha384" ∨ inv.digestName = "sha512"))
    ∧ (set_digest_parameters inv.digestName < 0 → inv.digestName ≠ "help" →
       runMain inv env =
         ([.stderr ("Digest " ++ inv.digestName ++ " not found.")], 1))
    ∧ (inv.digestName = "help" → runMain inv env = ([], 0)) := by
  refine ⟨?_, ?_, ?_⟩
  · unfold set_digest_parameters
    split_ifs with h <;> simp [h]
  · intro hbad hnh
    exact runMain_of_preSwitch_some inv env _
      (preSwitch_digest_unknown inv env hnss hoid hbad hnh)
  · intro hh
    exact runMain_of_preSwitch_some inv env _
      (preSwitch_digest_help inv env hnss hoid hh)

/-- A hash invocation given the unsupported digest name md5. -/
def badDigestInv : Invocation :=
  { baseInv with hash := true, infile := some "in.efi", digestName := "md5" }

/-- C8 witness: the report-and-exit-1 conjunct of `c8_digest_names` at the
concrete digest name md5. -/
theorem c8_witness :
    runMain badDigestInv baseEnv =
      ([.stderr ("Digest " ++ badDigestInv.digestName ++ " not found.")], 1) :=
  (c8_digest_names badDigestInv baseEnv rfl rfl).2.1 (by decide) (by decide)

/-- A process exit code the program can produce: 0 or 1. -/
def exitCode01 (n : Nat) : Prop := n = 0 ∨ n = 1

theorem exitCode01_zero : exitCode01 0 := Or.inl rfl

theorem exitCode01_one : exitCode01 1 := Or.inr rfl

/-- Every `exit` a helper can perform carries code 0 or 1. -/
def stepCode01 : Except Run (List Event) → Prop
  | .error r => exitCode01 r.2
  | .ok _ => True

/-- Every `exit` inside a switch case carries code 0 or 1. -/
def contCode01 : Cont → Prop
  | .error r => exitCode01 r.2
  | .ok _ => True

theorem seqStep_code01 (s : Except Run (List Event)) (k : Cont)
    (hs : stepCode01 s) (hk : contCode01 k) :
    contCode01 (seqStep s k) := by
  cases s with
  | error r => exact hs
  | ok t =>
    cases k with
    | error r =>
      obtain ⟨t2, c⟩ := r
      exact hk
    | ok p =>
      obtain ⟨t2, rc⟩ := p
      trivial

theorem emit_code01 (t : List Event) (k : Cont) (hk : contCode01 k) :
    contCode01 (emit t k) := by
  cases k with
  | error r =>
    obtain ⟨t2, c⟩ := r
    exact hk
  | ok p =>
    obtain ⟨t2, rc⟩ := p
    trivial

theorem check_inputs_code01 (inv : Invocation) :
    stepCode01 (check_inputs inv) := by
  unfold check_inputs
  split_ifs <;> simp [stepCode01, exitCode01]

theorem open_input_code01 (inv : Invocation) (env : Env) :
    stepCode01 (open_input inv env) := by
  unfold open_input
  split_ifs <;> simp [stepCode01, exitCode01]

theorem open_output_code01 (inv : Invocation) (env : Env) :
    stepCode01 (open_output inv env) := by
  unfold open_output
  split_ifs <;> simp [stepCode01, exitCode01]

theorem open_rawsig_input_code01 (inv : Invocation) :
    stepCode01 (open_rawsig_input inv) := by
  unfold open_rawsig_input
  split_ifs <;> simp [stepCode01, exitCode01]

theorem open_sattr_input_code01 (inv : Invocation) :
    stepCode01 (open_sattr_input inv) := by
  unfold open_sattr_input
  split_ifs <;> simp [stepCode01, exitCode01]

theorem open_sattr_output_code01 (inv : Invocation) (env : Env) :
    stepCode01 (open_sattr_output inv env) := by
  unfold open_sattr_output
  split_ifs <;> simp [stepCode01, exitCode01]

theorem open_sig_input_code01 (inv : Invocation) :
    stepCode01 (open_sig_input inv) := by
  unfold open_sig_input
  split_ifs <;> simp [stepCode01, exitCode01]

theorem open_sig_output_code01 (inv : Invocation) (env : Env) :
    stepCode01 (open_sig_output inv env) := by
  unfold open_sig_output
  split_ifs <;> simp [stepCode01, exitCode01]

theorem open_pubkey_output_code01 (inv : Invocation) (env : Env) :
    stepCode01 (open_pubkey_output inv env) := by
  unfold open_pubkey_output
  split_ifs <;> simp [stepCode01, exitCode01]

theorem open_cert_output_code01 (inv : Invocation) (env : Env) :
    stepCode01 (open_cert_output inv env) := by
  unfold open_cert_output
  split_ifs <;> simp [stepCode01, exitCode01]

theorem find_certificate_step_code01 (env : Env) (needKey : Bool) :
    stepCode01 (find_certificate_step env needKey) := by
  unfold find_certificate_step
  split_ifs <;> simp [stepCode01, exitCode01]

theorem caseImportRawSattrs_code01 (inv : Invocation) (env : Env) :
    contCode01 (caseImportRawSattrs inv env) := by
  unfold caseImportRawSattrs
  apply seqStep_code01 _ _ (check_inputs_code01 inv)
  apply seqStep_code01 _ _ (find_certificate_step_code01 env false)
  apply seqStep_code01 _ _ (open_rawsig_input_code01 inv)
  apply seqStep_code01 _ _ (open_sattr_input_code01 inv)
  apply emit_code01
  apply seqStep_code01 _ _ (open_input_code01 inv env)
  apply seqStep_code01 _ _ (open_output_code01 inv env)
  apply emit_code01
  trivial

theorem caseExportSattrs_code01 (inv : Invocation) (env : Env) :
    contCode01 (caseExportSattrs inv env) := by
  unfold caseExportSattrs
  apply seqStep_code01 _ _ (open_input_code01 inv env)
  apply seqStep_code01 _ _ (open_sattr_output_code01 inv env)
  apply emit_code01
  trivial

theorem caseImportSig_code01 (inv : Invocation) (env : Env) :
    contCode01 (caseImportSig inv env) := by
  unfold caseImportSig
  apply seqStep_code01 _ _ (check_inputs_code01 inv)
  split_ifs
  · exact exitCode01_one
  · apply seqStep_code01 _ _ (open_input_code01 inv env)
    apply seqStep_code01 _ _ (open_output_code01 inv env)
    apply emit_code01
    apply seqStep_code01 _ _ (open_sig_input_code01 inv)
    apply emit_code01
    trivial

theorem caseExportPubkey_code01 (inv : Invocation) (env : Env) :
    contCode01 (caseExportPubkey inv env) := by
  unfold caseExportPubkey
  apply seqStep_code01 _ _ (find_certificate_step_code01 env true)
  apply seqStep_code01 _ _ (open_pubkey_output_code01 inv env)
  apply emit_code01
  trivial

theorem caseExportCert_code01 (inv : Invocation) (env : Env) :
    contCode01 (caseExportCert inv env) := by
  unfold caseExportCert
  apply seqStep_code01 _ _ (find_certificate_step_code01 env false)
  apply seqStep_code01 _ _ (open_cert_output_code01 inv env)
  apply emit_code01
  trivial

theorem caseExportSig_code01 (inv : Invocation) (env : Env) :
    contCode01 (caseExportSig inv env) := by
  unfold caseExportSig
  apply seqStep_code01 _ _ (open_input_code01 inv env)
  apply seqStep_code01 _ _ (open_sig_output_code01 inv env)
  dsimp only
  split_ifs <;>
    first
      | exact exitCode01_one
      | (apply emit_code01; trivial)

theorem caseRemove_code01 (inv : Invocation) (env : Env) :
    contCode01 (caseRemove inv env) := by
  unfold caseRemove
  apply seqStep_code01 _ _ (check_inputs_code01 inv)
  apply seqStep_code01 _ _ (open_input_code01 inv env)
  apply seqStep_code01 _ _ (open_output_code01 inv env)
  apply emit_code01
  split_ifs
  · exact exitCode01_one
  · apply emit_code01
    trivial

theorem caseList_code01 (inv : Invocation) (env : Env) :
    contCode01 (caseList inv env) := by
  unfold caseList
  apply seqStep_code01 _ _ (open_input_code01 inv env)
  apply emit_code01
  trivial

theorem caseHash_code01 (inv : Invocation) (env : Env) :
    contCode01 (caseHash inv env) := by
  unfold caseHash
  apply seqStep_code01 _ _ (open_input_code01 inv env)
  apply emit_code01
  trivial

theorem caseExportGenSig_code01 (inv : Invocation) (env : Env) :
    contCode01 (caseExportGenSig inv env) := by
  unfold caseExportGenSig
  apply seqStep_code01 _ _ (find_certificate_step_code01 env true)
  apply seqStep_code01 _ _ (open_input_code01 inv env)
  apply seqStep_code01 _ _ (open_sig_output_code01 inv env)
  apply emit_code01
  trivial

theorem caseImportGenSig_code01 (inv : Invocation) (env : Env) :
    contCode01 (caseImportGenSig inv env) := by
  unfold caseImportGenSig
  apply seqStep_code01 _ _ (check_inputs_code01 inv)
  apply seqStep_code01 _ _ (find_certificate_step_code01 env true)
  split_ifs
  · exact exitCode01_one
  · apply seqStep_code01 _ _ (open_input_code01 inv env)
    apply seqStep_code01 _ _ (open_output_code01 inv env)
    apply emit_code01
    trivial

theorem ite_code01 (c : Prop) [Decidable c] (t e : Cont)
    (ht : contCode01 t) (he : contCode01 e) :
    contCode01 (if c then t else e) := by
  split_ifs <;> assumption

theorem runSwitch_code01 (inv : Invocation) (env : Env) :
    contCode01 (runSwitch inv env) := by
  unfold runSwitch
  dsimp only
  refine ite_code01 _ _ _ exitCode01_zero ?_
  refine ite_code01 _ _ _ (caseImportRawSattrs_code01 inv env) ?_
  refine ite_code01 _ _ _ (caseExportSattrs_code01 inv env) ?_
  refine ite_code01 _ _ _ (caseImportSig_code01 inv env) ?_
  refine ite_code01 _ _ _ (caseExportPubkey_code01 inv env) ?_
  refine ite_code01 _ _ _ (caseExportCert_code01 inv env) ?_
  refine ite_code01 _ _ _ (caseExportSig_code01 inv env) ?_
  refine ite_code01 _ _ _ (caseRemove_code01 inv env) ?_
  refine ite_code01 _ _ _ (caseList_code01 inv env) ?_
  refine ite_code01 _ _ _ (caseHash_code01 inv env) ?_
  refine ite_code01 _ _ _ (caseExportGenSig_code01 inv env) ?_
  refine ite_code01 _ _ _ (caseImportGenSig_code01 inv env) ?_
  refine ite_code01 _ _ _ trivial ?_
  exact exitCode01_one

theorem preSwitch_code01 (inv : Invocation) (env : Env) (r : Run)
    (h : preSwitch inv env = some r) : exitCode01 r.2 := by
  unfold preSwitch at h
  split_ifs at h
  all_goals simp only [Option.some.injEq, reduceCtorEq] at h
  all_goals
    first
      | (rw [← h]; exact exitCode01_one)
      | (rw [← h]; exact exitCode01_zero)

theorem runMain_code01 (inv : Invocation) (env : Env) :
    (runMain inv env).2 = 0 ∨ (runMain inv env).2 = 1 := by
  rcases hp : preSwitch inv env with _ | r
  · rcases hs : runSwitch inv env with r | p
    · have h := runSwitch_code01 inv env
      rw [hs] at h
      rw [runMain_of_switch_error inv env r hp hs]
      exact h
    · obtain ⟨t, rc⟩ := p
      unfold runMain
      rw [hp, hs]
      dsimp only
      split_ifs <;> simp
  · rw [runMain_of_preSwitch_some inv env r hp]
    exact preSwitch_code01 inv env r hp

/-- A hash invocation given the digest name help. -/
def helpHashInv : Invocation :=
  { baseInv with hash := true, infile := some "x.efi", digestName := "help" }

/-- C5 counterexample: the digest name help is unknown (it is none of
sha1, sha256, sha384, sha512), yet the invocation exits with code 0
without performing the requested hash action: line 701 runs
`exit(!is_help)`, which is `exit(0)` for the name help.  This contradicts
the claim that the program exits 1 on any fatal error including an
unknown digest algorithm name, and exits 0 exactly when the requested
operation succeeds. -/
theorem c5_counterexample :
    runMain helpHashInv baseEnv = ([], 0)
    ∧ set_digest_parameters helpHashInv.digestName < 0
    ∧ Event.generateDigest helpHashInv.padding
        ∉ (runMain helpHashInv baseEnv).1 := by
  decide

/-- C5 amended: the process exit code is always 0 or 1; the no-action
invocation reports nothing-to-do and exits 0; an unknown digest algorithm
name exits 1 after a not-found report — except the special name help,
which exits 0 after printing the supported digest list (line 701,
`exit(!is_help)`). -/
theorem c5_exit_codes (inv : Invocation) (env : Env) :
    ((runMain inv env).2 = 0 ∨ (runMain inv env).2 = 1)
    ∧ (actionOf inv = NO_FLAGS → env.nssInitOk = true →
       env.registerOidsOk = true →
       set_digest_parameters inv.digestName = 0 →
       (inv.sign = true → inv.certname.isSome) →
       runMain inv env = ([.stderr "pesign: Nothing to do."], 0))
    ∧ (env.nssInitOk = true → env.registerOidsOk = true →
       set_digest_parameters inv.digestName < 0 → inv.digestName ≠ "help" →
       (runMain inv env).2 = 1)
    ∧ (env.nssInitOk = true → env.registerOidsOk = true →
       inv.digestName = "help" → runMain inv env = ([], 0)) := by
  refine ⟨runMain_code01 inv env, ?_, ?_, ?_⟩
  · intro hact hnss hoid hdg hsc
    have hpre := preSwitch_eq_none inv env hnss hoid hdg hsc
    exact runMain_of_switch_error inv env _ hpre
      (by rw [runSwitch_eq_caseNoFlags inv env hact]; rfl)
  · intro hnss hoid hbad hnh
    rw [runMain_of_preSwitch_some inv env _
      (preSwitch_digest_unknown inv env hnss hoid hbad hnh)]
  · intro hnss hoid hh
    exact runMain_of_preSwitch_some inv env _
      (preSwitch_digest_help inv env hnss hoid hh)

/-- C5 witness: the no-action conjunct of `c5_exit_codes` at the empty
invocation — nothing requested, exit code 0. -/
theorem c5_witness :
    runMain baseInv baseEnv = ([.stderr "pesign: Nothing to do."], 0) :=
  (c5_exit_codes baseInv baseEnv).2.1 (by decide) rfl rfl (by decide)
    (by decide)

/-- C10: the signing, raw-signature-import, signed-attribute-export and
signature-export-with-generation pipelines always call `generate_digest`
with the padding argument fixed to 1 (lines 762, 773, 883, 904, 908),
whatever the `--padding` flag said; only the standalone hash action
passes the user-supplied padding flag (line 869). -/
theorem c10_padding_fixed (inv : Invocation) (env : Env)
    (fi fo rs sa so sg : String)
    (hnss : env.nssInitOk = true) (hoid : env.registerOidsOk = true)
    (hdg : set_digest_parameters inv.digestName = 0)
    (hio : env.inputOpenOk = true) (hil : env.inputLoadOk = true)
    (hps : env.parseSignaturesOk = true) (hsd : env.nssShutdownOk = true)
    (hin : inv.infile = some fi) :
    (actionOf inv = (IMPORT_RAW_SIGNATURE ||| IMPORT_SATTRS) →
     inv.sign = false → inv.outfile = some fo → fi ≠ fo →
     inv.rawsig = some rs → inv.insattrs = some sa → env.certFound = true →
     env.outfileExists = false → env.outputOpenOk = true →
     env.outputLoadOk = true →
     runMain inv env =
       ([.findCertificate false true, .openRawsigInput rs,
         .openSattrInput sa, .importRawSignature, .closeSattrInput,
         .closeRawsigInput, .openInput fi, .openOutput fo, .clearCert fo,
         .closeInput, .generateDigest true, .calculateSignatureSpace,
         .allocateSignatureSpace, .generateSignature,
         .insertSignature inv.signum, .closeOutput fo], 0)
     ∧ ∀ p, Event.generateDigest p ∈ (runMain inv env).1 → p = true)
    ∧
    (actionOf inv = (IMPORT_SIGNATURE ||| GENERATE_SIGNATURE) →
     inv.certname.isSome → inv.signum ≤ 1 → inv.outfile = some fo →
     fi ≠ fo → env.certFound = true → env.outfileExists = false →
     env.outputOpenOk = true → env.outputLoadOk = true →
     runMain inv env =
       ([.findCertificate true true, .openInput fi, .openOutput fo,
         .clearCert fo, .closeInput, .generateDigest true,
         .calculateSignatureSpace, .allocateSignatureSpace,
         .generateDigest true, .generateSignature,
         .insertSignature inv.signum, .closeOutput fo], 0)
     ∧ ∀ p, Event.generateDigest p ∈ (runMain inv env).1 → p = true)
    ∧
    (actionOf inv = EXPORT_SATTRS → inv.sign = false →
     inv.outsattrs = some so → env.outsattrsExists = false →
     runMain inv env =
       ([.openInput fi, .openSattrOutput so, .generateDigest true,
         .generateSattrBlob, .closeSattrOutput, .closeInput], 0)
     ∧ ∀ p, Event.generateDigest p ∈ (runMain inv env).1 → p = true)
    ∧
    (actionOf inv = (EXPORT_SIGNATURE ||| GENERATE_SIGNATURE) →
     inv.certname.isSome → inv.outsig = some sg →
     env.outsigExists = false → env.certFound = true →
     runMain inv env =
       ([.findCertificate true true, .openInput fi, .openSigOutput sg,
         .generateDigest true, .generateSignature, .exportSignature], 0)
     ∧ ∀ p, Event.generateDigest p ∈ (runMain inv env).1 → p = true)
    ∧
    (actionOf inv = (GENERATE_DIGEST ||| PRINT_DIGEST) → inv.sign = false →
     runMain inv env =
       ([.openInput fi, .generateDigest inv.padding]
         ++ print_digest env.digest, 0)
     ∧ Event.generateDigest inv.padding ∈ (runMain inv env).1) := by
  refine ⟨?_, ?_, ?_, ?_, ?_⟩
  · intro hact hsgn hout hne hrs hsa hcf hfe hoo hol
    have hpre := preSwitch_eq_none inv env hnss hoid hdg
      (fun h => absurd h (by rw [hsgn]; exact Bool.false_ne_true))
    have hrun := runMain_of_switch_ok inv env _ 0 hpre
      (by rw [runSwitch_eq_caseImportRawSattrs inv env hact,
              caseImportRawSattrs_run inv env fi fo rs sa hin hout hne hrs
                hsa hcf hio hil hps hfe hoo hol]) hsd le_rfl
    refine ⟨hrun, ?_⟩
    rw [hrun]
    intro p hp
    simp at hp
    exact hp
  · intro hact hcn hle hout hne hcf hfe hoo hol
    have hpre := preSwitch_eq_none inv env hnss hoid hdg (fun _ => hcn)
    have hrun := runMain_of_switch_ok inv env _ 0 hpre
      (by rw [runSwitch_eq_caseImportGenSig inv env hact,
              caseImportGenSig_le inv env fi fo hin hout hne hcf hio hil hps
                hfe hoo hol hle]) hsd le_rfl
    refine ⟨hrun, ?_⟩
    rw [hrun]
    intro p hp
    simp at hp
    exact hp
  · intro hact hsgn hso hae
    have hpre := preSwitch_eq_none inv env hnss hoid hdg
      (fun h => absurd h (by rw [hsgn]; exact Bool.false_ne_true))
    have hrun := runMain_of_switch_ok inv env _ 0 hpre
      (by rw [runSwitch_eq_caseExportSattrs inv env hact,
              caseExportSattrs_run inv env fi so hin hso hio hil hps hae])
      hsd le_rfl
    refine ⟨hrun, ?_⟩
    rw [hrun]
    intro p hp
    simp at hp
    exact hp
  · intro hact hcn hsg hse hcf
    have hpre := preSwitch_eq_none inv env hnss hoid hdg (fun _ => hcn)
    have hrun := runMain_of_switch_ok inv env _ 0 hpre
      (by rw [runSwitch_eq_caseExportGenSig inv env hact,
              caseExportGenSig_run inv env fi sg hin hsg hcf hio hil hps
                hse]) hsd le_rfl
    refine ⟨hrun, ?_⟩
    rw [hrun]
    intro p hp
    simp at hp
    exact hp
  · intro hact hsgn
    have hpre := preSwitch_eq_none inv env hnss hoid hdg
      (fun h => absurd h (by rw [hsgn]; exact Bool.false_ne_true))
    have hrun := runMain_of_switch_ok inv env _ 0 hpre
      (by rw [runSwitch_eq_caseHash inv env hact,
              caseHash_run inv env fi hin hio hil hps]) hsd le_rfl
    refine ⟨hrun, ?_⟩
    rw [hrun]
    simp [print_digest]

/-- A sign-and-embed invocation that also passes `--padding`. -/
def paddedSignInv : Invocation :=
  { baseInv with
    sign := true, certname := some "mycert", infile := some "in.efi",
    outfile := some "out.efi", padding := true }

/-- C10 witness: the sign-and-embed conjunct of `c10_padding_fixed` at a
concrete invocation that passes `--padding`: both digest computations
still run with padding fixed to true. -/
theorem c10_witness :
    runMain paddedSignInv baseEnv =
      ([.findCertificate true true, .openInput "in.efi",
        .openOutput "out.efi", .clearCert "out.efi", .closeInput,
        .generateDigest true, .calculateSignatureSpace,
        .allocateSignatureSpace, .generateDigest true, .generateSignature,
        .insertSignature 0, .closeOutput "out.efi"], 0)
    ∧ ∀ p, Event.generateDigest p ∈ (runMain paddedSignInv baseEnv).1 →
        p = true := by
  have h := (c10_padding_fixed paddedSignInv baseEnv "in.efi" "out.efi"
    "r" "s" "t" "u" rfl rfl (by decide) rfl rfl rfl rfl rfl).2.1
    (by decide) (by decide) (by decide) rfl (by decide) rfl rfl rfl rfl
  simpa using h

end Pesign
